import Mathlib

/-!
# MCP9808 driver: shallow embedding of `src/src/mcp9808.cpp`

The driver talks to the sensor only through two injected function pointers
(`I2C.Read`, `I2C.Write`) and reports alarms through three optional
callbacks.  Everything outside the driver (the bus, the sensor, the
application) is an abstract state `σ`; every transport call and every alarm
callback is appended to a log, so that statements such as "issues no read"
are statements about that log.

Modelling conventions
* `uint8_t`, `uint16_t` are `Nat` with an explicit `% 256`, `% 65536` where a
  value is stored; `int`, `int8_t`, `int16_t` are `Int`, and a narrowing store
  wraps modulo `2^w` (the behaviour of the GCC toolchain the driver targets).
* A nullable pointer is an `Option`; a call through a null function pointer
  has no defined behaviour and is the result `none` of the operation.
* An output pointer is `Option α`: `none` is `NULL`, `some v` is a valid
  destination currently holding `v`; the outcome carries the destination's
  content after the call.
* `ESP_LOGx` lines have no effect on the driver and are left out.
-/

namespace MCP9808

/-! ## Constants of `mcp9808.cpp` and `mcp9808_errors.h` -/

def MCP9808_REG_POINTER : Nat := 0x00
def MCP9808_REG_CONFIG : Nat := 0x01
def MCP9808_REG_TEMP_UPPER : Nat := 0x02
def MCP9808_REG_TEMP_LOWER : Nat := 0x03
def MCP9808_REG_TEMP_CRIT : Nat := 0x04
def MCP9808_REG_TEMP_AMBIENT : Nat := 0x05
def MCP9808_REG_MANUFACTURER_ID : Nat := 0x06
def MCP9808_REG_DEVICE_ID : Nat := 0x07
def MCP9808_REG_RESOLUTION : Nat := 0x08

def MCP9808_BIT_SIGN : Nat := 0x04
def MCP9808_BIT_TLOWER : Nat := 0x05
def MCP9808_BIT_TUPPER : Nat := 0x06
def MCP9808_BIT_WIN_LOCK : Nat := 0x06
def MCP9808_BIT_TCRIT : Nat := 0x07
def MCP9808_BIT_CRIT_LOCK : Nat := 0x07

def MCP9808_DEVICE_ID : Nat := 0x04
def MCP9808_MANUFACTURER_ID : Nat := 0x0054

abbrev MCP9808_Error_t := Int

def MCP9808_BASE : Int := 0x7000
def MCP9808_ERR_OK : MCP9808_Error_t := MCP9808_BASE + 0
def MCP9808_ERR_INVALID_ARG : MCP9808_Error_t := MCP9808_BASE + 1
def MCP9808_ERR_INVALID_RESPONSE : MCP9808_Error_t := MCP9808_BASE + 2
def MCP9808_ERR_LOCKED : MCP9808_Error_t := MCP9808_BASE + 3
def MCP9808_ERR_NO_DEVICE : MCP9808_Error_t := MCP9808_BASE + 4
def MCP9808_ERR_NOT_INITIALIZED : MCP9808_Error_t := MCP9808_BASE + 5
def MCP9808_ERR_NOT_ACTIVE : MCP9808_Error_t := MCP9808_BASE + 6

/-! ## Types of `mcp9808_defs.h` -/

/-- Hysteresis levels, `MCP9808_Hysteresis_t`. -/
inductive MCP9808_Hysteresis_t where
  | MCP9808_HYSTERESIS_0
  | MCP9808_HYSTERESIS_15
  | MCP9808_HYSTERESIS_3
  | MCP9808_HYSTERESIS_6
deriving DecidableEq, Repr

/-- Ordinal of a hysteresis level (the enumerators count from 0). -/
def MCP9808_Hysteresis_t.toNat : MCP9808_Hysteresis_t → Nat
  | .MCP9808_HYSTERESIS_0 => 0
  | .MCP9808_HYSTERESIS_15 => 1
  | .MCP9808_HYSTERESIS_3 => 2
  | .MCP9808_HYSTERESIS_6 => 3

/-- Resolution levels, `MCP9808_Resolution_t`. -/
inductive MCP9808_Resolution_t where
  | MCP9808_RESOLUTION_05
  | MCP9808_RESOLUTION_025
  | MCP9808_RESOLUTION_0125
  | MCP9808_RESOLUTION_00625
deriving DecidableEq, Repr

/-- Ordinal of a resolution level (the enumerators count from 0). -/
def MCP9808_Resolution_t.toNat : MCP9808_Resolution_t → Nat
  | .MCP9808_RESOLUTION_05 => 0
  | .MCP9808_RESOLUTION_025 => 1
  | .MCP9808_RESOLUTION_0125 => 2
  | .MCP9808_RESOLUTION_00625 => 3

/-- Which of the three alarm callbacks of the handle an event belongs to. -/
inductive AlarmKind where
  | TCrit
  | TUpper
  | TLower
deriving DecidableEq, Repr

/-- One observable action of the driver on its environment. A read records
the register, the requested size, the status the transport returned and the
buffer it returned; a write records the register, the bytes presented and the
status; an alarm records the callback and its argument. -/
inductive Event where
  | read (Register Size : Nat) (status : Int) (data : List Nat)
  | write (Register : Nat) (data : List Nat) (status : Int)
  | alarm (kind : AlarmKind) (Temperature : Int)
deriving DecidableEq, Repr

/-- `MCP9808_Write_t`: register, bytes, size, bus address (the instance
pointer points at the handle's address byte), acting on the environment. -/
abbrev MCP9808_Write_t (σ : Type) := Nat → List Nat → Nat → Nat → σ → Int × σ

/-- `MCP9808_Read_t`: register, size, bus address; returns the status, the
content of the `Size`-byte buffer after the call, and the new environment. -/
abbrev MCP9808_Read_t (σ : Type) := Nat → Nat → Nat → σ → Int × List Nat × σ

/-- `MCP9808_Alarm_t`: a callback receiving the last temperature. -/
abbrev MCP9808_Alarm_t (σ : Type) := Int → σ → σ

/-- The anonymous `I2C` member of `MCP9808_t`. -/
structure I2C_t (σ : Type) where
  Write : Option (MCP9808_Write_t σ)
  Read : Option (MCP9808_Read_t σ)
  Address : Nat

/-- The anonymous `Internal` member of `MCP9808_t`. -/
structure Internal_t where
  isInitialized : Bool
  isShutdown : Bool
deriving DecidableEq, Repr

/-- The device object `MCP9808_t`. -/
structure MCP9808_t (σ : Type) where
  ID : Nat
  Revision : Nat
  TCrit_Alarm : Option (MCP9808_Alarm_t σ)
  TUpper_Alarm : Option (MCP9808_Alarm_t σ)
  TLower_Alarm : Option (MCP9808_Alarm_t σ)
  I2C : I2C_t σ
  Internal : Internal_t

/-- The environment of the driver: its abstract state and the log of the
driver's actions on it, oldest first. -/
structure World (σ : Type) where
  ext : σ
  log : List Event

/-- What an operation leaves behind: the returned status, the handle, the
environment and the content of the output destination. -/
structure Outcome (σ : Type) (α : Type) where
  Error : MCP9808_Error_t
  Device : MCP9808_t σ
  world : World σ
  out : α

/-! ## Machine arithmetic -/

/-- Element `i` of a byte buffer as a `uint8_t`. -/
def byteAt (data : List Nat) (i : Nat) : Nat := data.getD i 0 % 256

/-- Narrowing store of an `int` into an `int8_t`. -/
def toInt8 (x : Int) : Int := (x + 128) % 256 - 128

/-- Narrowing store of an `int` into an `int16_t`. -/
def toInt16 (x : Int) : Int := (x + 32768) % 65536 - 32768

/-- Bit pattern of `~x` for an `int` operand `0 ≤ x < 2^31` (32-bit `int`). -/
def notInt (x : Nat) : Nat := 2 ^ 32 - 1 - x

/-! ## Calls through the injected pointers -/

/-- Result of one transport read. -/
structure ReadResult (σ : Type) where
  status : Int
  data : List Nat
  world : World σ

/-- Result of one transport write. -/
structure WriteResult (σ : Type) where
  status : Int
  world : World σ

/-- `p_Device.I2C.Read(Register, Temp, Size, &p_Device.I2C.Address)`. -/
def busRead {σ : Type} (rd : MCP9808_Read_t σ) (Register Size : Nat)
    (p_Device : MCP9808_t σ) (w : World σ) : ReadResult σ :=
  let r := rd Register Size p_Device.I2C.Address w.ext
  { status := r.1
    data := r.2.1
    world := { ext := r.2.2, log := w.log ++ [Event.read Register Size r.1 r.2.1] } }

/-- `p_Device.I2C.Write(Register, Temp, Size, &p_Device.I2C.Address)`. -/
def busWrite {σ : Type} (wr : MCP9808_Write_t σ) (Register : Nat) (data : List Nat)
    (Size : Nat) (p_Device : MCP9808_t σ) (w : World σ) : WriteResult σ :=
  let r := wr Register data Size p_Device.I2C.Address w.ext
  { status := r.1
    world := { ext := r.2, log := w.log ++ [Event.write Register data r.1] } }

/-- `if(cb != NULL) cb(Temperature);`. -/
def fireAlarm {σ : Type} (cb : Option (MCP9808_Alarm_t σ)) (kind : AlarmKind)
    (Temperature : Int) (w : World σ) : World σ :=
  match cb with
  | none => w
  | some f => { ext := f Temperature w.ext, log := w.log ++ [Event.alarm kind Temperature] }

/-! ## The driver -/

/-- `MCP9808_ModifyBits` (static): read-modify-write of the configuration
register. `Mask` and `Value` are `uint16_t` parameters. -/
def MCP9808_ModifyBits {σ : Type} (p_Device : MCP9808_t σ) (Register Mask Value : Nat)
    (w : World σ) : Option (Outcome σ Unit) :=
  let _ := Register -- the parameter is never used: the register is always the configuration register
  let Mask := Mask % 65536
  let Value := Value % 65536
  match p_Device.I2C.Read with
  | none => none
  | some rd =>
    let r := busRead rd MCP9808_REG_CONFIG 2 p_Device w
    if r.status ≠ 0 then
      some ⟨MCP9808_ERR_INVALID_RESPONSE, p_Device, r.world, ()⟩
    else
      let Temp0 := byteAt r.data 0
      let Temp1 := byteAt r.data 1
      let Temp0 := (Temp0 &&& notInt (Mask >>> 0x08)) % 256
      let Temp0 := (Temp0 ||| (Value >>> 0x08)) % 256
      let Temp1 := (Temp1 &&& notInt (Mask &&& 0xFF)) % 256
      let Temp1 := (Temp1 ||| (Value &&& 0xFF)) % 256
      match p_Device.I2C.Write with
      | none => none
      | some wr =>
        let r2 := busWrite wr MCP9808_REG_CONFIG [Temp0, Temp1] 2 p_Device r.world
        if r2.status ≠ 0 then
          some ⟨MCP9808_ERR_INVALID_RESPONSE, p_Device, r2.world, ()⟩
        else
          some ⟨MCP9808_ERR_OK, p_Device, r2.world, ()⟩

/-- `MCP9808_Init`. Both function pointers are checked before any call, so
the operation always has an outcome. -/
def MCP9808_Init {σ : Type} (p_Device : MCP9808_t σ) (w : World σ) : Outcome σ Unit :=
  match p_Device.I2C.Read, p_Device.I2C.Write with
  | some rd, some _ =>
    if p_Device.I2C.Address < 0x18 then
      ⟨MCP9808_ERR_INVALID_ARG, p_Device, w, ()⟩
    else if p_Device.Internal.isInitialized then
      ⟨MCP9808_ERR_OK, p_Device, w, ()⟩
    else
      let d0 : MCP9808_t σ :=
        { p_Device with Internal := { p_Device.Internal with isInitialized := false } }
      let r1 := busRead rd MCP9808_REG_MANUFACTURER_ID 2 d0 w
      if r1.status ≠ 0 then
        ⟨MCP9808_ERR_INVALID_RESPONSE, d0, r1.world, ()⟩
      else
        let ID := ((byteAt r1.data 0 <<< 0x08) ||| byteAt r1.data 1) % 65536
        if ID ≠ MCP9808_MANUFACTURER_ID then
          ⟨MCP9808_ERR_NO_DEVICE, d0, r1.world, ()⟩
        else
          let r2 := busRead rd MCP9808_REG_DEVICE_ID 2 d0 r1.world
          if r2.status ≠ 0 then
            ⟨MCP9808_ERR_INVALID_RESPONSE, d0, r2.world, ()⟩
          else
            let r3 := busRead rd MCP9808_REG_CONFIG 2 d0 r2.world
            if r3.status ≠ 0 then
              ⟨MCP9808_ERR_INVALID_RESPONSE, d0, r3.world, ()⟩
            else
              let Temp0 := byteAt r3.data 0
              let Temp1 := byteAt r3.data 1
              let d1 : MCP9808_t σ := { d0 with ID := Temp0, Revision := Temp1 }
              if Temp1 &&& ((0x01 <<< MCP9808_BIT_CRIT_LOCK) ||| (0x01 <<< MCP9808_BIT_WIN_LOCK))
                  = ((0x01 <<< MCP9808_BIT_CRIT_LOCK) ||| (0x01 <<< MCP9808_BIT_WIN_LOCK)) then
                ⟨MCP9808_ERR_LOCKED, d1, r3.world, ()⟩
              else
                ⟨MCP9808_ERR_OK,
                 { d1 with Internal := { isInitialized := true, isShutdown := false } },
                 r3.world, ()⟩
  | _, _ => ⟨MCP9808_ERR_INVALID_ARG, p_Device, w, ()⟩

/-- `MCP9808_SwitchShutdown`. -/
def MCP9808_SwitchShutdown {σ : Type} (p_Device : MCP9808_t σ) (Enable : Bool)
    (w : World σ) : Option (Outcome σ Unit) :=
  if p_Device.Internal.isInitialized = false then
    some ⟨MCP9808_ERR_NOT_INITIALIZED, p_Device, w, ()⟩
  else if p_Device.Internal.isShutdown = Enable then
    some ⟨MCP9808_ERR_OK, p_Device, w, ()⟩
  else
    match MCP9808_ModifyBits p_Device MCP9808_REG_CONFIG (0x01 <<< 0x08)
        (Enable.toNat <<< 0x08) w with
    | none => none
    | some r =>
      if r.Error ≠ MCP9808_ERR_OK then
        some r
      else
        some ⟨MCP9808_ERR_OK,
              { r.Device with Internal := { r.Device.Internal with isShutdown := Enable } },
              r.world, ()⟩

/-- The whole-degree magnitude `((Temp[0] & 0x0F) << 0x04) + (Temp[1] >> 0x04)`
that both branches of `MCP9808_GetTemperature` compute. -/
def wholeDegrees (Temp0 Temp1 : Nat) : Nat := ((Temp0 &&& 0x0F) <<< 0x04) + (Temp1 >>> 0x04)

/-- `MCP9808_GetTemperature`. -/
def MCP9808_GetTemperature {σ : Type} (p_Device : MCP9808_t σ) (p_Temperature : Option Int)
    (w : World σ) : Option (Outcome σ (Option Int)) :=
  match p_Temperature with
  | none => some ⟨MCP9808_ERR_INVALID_ARG, p_Device, w, none⟩
  | some old =>
    if p_Device.Internal.isInitialized = false then
      some ⟨MCP9808_ERR_NOT_INITIALIZED, p_Device, w, some old⟩
    else if p_Device.Internal.isShutdown then
      some ⟨MCP9808_ERR_NOT_ACTIVE, p_Device, w, some old⟩
    else
      match p_Device.I2C.Read with
      | none => none
      | some rd =>
        let r := busRead rd MCP9808_REG_TEMP_AMBIENT 2 p_Device w
        if r.status ≠ 0 then
          some ⟨MCP9808_ERR_INVALID_RESPONSE, p_Device, r.world, some old⟩
        else
          let Temp0 := byteAt r.data 0
          let Temp1 := byteAt r.data 1
          let Temperature : Int :=
            if (Temp0 &&& (0x01 <<< MCP9808_BIT_SIGN)) >>> MCP9808_BIT_SIGN ≠ 0 then
              toInt8 (256 - (wholeDegrees Temp0 Temp1 : Int))
            else
              toInt8 (wholeDegrees Temp0 Temp1 : Int)
          let w1 :=
            if (Temp0 &&& (0x01 <<< MCP9808_BIT_TCRIT)) >>> MCP9808_BIT_TCRIT ≠ 0 then
              fireAlarm p_Device.TCrit_Alarm AlarmKind.TCrit Temperature r.world
            else r.world
          let w2 :=
            if (Temp0 &&& (0x01 <<< MCP9808_BIT_TUPPER)) >>> MCP9808_BIT_TUPPER ≠ 0 then
              fireAlarm p_Device.TUpper_Alarm AlarmKind.TUpper Temperature w1
            else w1
          let w3 :=
            if (Temp0 &&& (0x01 <<< MCP9808_BIT_TLOWER)) >>> MCP9808_BIT_TLOWER ≠ 0 then
              fireAlarm p_Device.TLower_Alarm AlarmKind.TLower Temperature w2
            else w2
          some ⟨MCP9808_ERR_OK, p_Device, w3, some Temperature⟩

/-- `MCP9808_SetTupper`. `Limit` is an `int16_t`. -/
def MCP9808_SetTupper {σ : Type} (p_Device : MCP9808_t σ) (Limit : Int) (w : World σ) :
    Option (Outcome σ Unit) :=
  if p_Device.Internal.isInitialized = false then
    some ⟨MCP9808_ERR_NOT_INITIALIZED, p_Device, w, ()⟩
  else
    let Temp0 := ((Limit >>> 0x08) % 256).toNat
    let Temp1 := (Limit % 256).toNat
    match p_Device.I2C.Write with
    | none => none
    | some wr =>
      let r := busWrite wr MCP9808_REG_TEMP_UPPER [Temp0, Temp1] 2 p_Device w
      if r.status ≠ 0 then
        some ⟨MCP9808_ERR_INVALID_RESPONSE, p_Device, r.world, ()⟩
      else
        some ⟨MCP9808_ERR_OK, p_Device, r.world, ()⟩

/-- `MCP9808_GetTupper`. The destination is an `int16_t`. -/
def MCP9808_GetTupper {σ : Type} (p_Device : MCP9808_t σ) (p_Limit : Option Int) (w : World σ) :
    Option (Outcome σ (Option Int)) :=
  match p_Limit with
  | none => some ⟨MCP9808_ERR_INVALID_ARG, p_Device, w, none⟩
  | some old =>
    if p_Device.Internal.isInitialized = false then
      some ⟨MCP9808_ERR_NOT_INITIALIZED, p_Device, w, some old⟩
    else
      match p_Device.I2C.Read with
      | none => none
      | some rd =>
        let r := busRead rd MCP9808_REG_TEMP_UPPER 2 p_Device w
        if r.status ≠ 0 then
          some ⟨MCP9808_ERR_INVALID_RESPONSE, p_Device, r.world, some old⟩
        else
          let Temp0 := byteAt r.data 0
          let Temp1 := byteAt r.data 1
          some ⟨MCP9808_ERR_OK, p_Device, r.world,
                some (toInt16 (((Temp0 <<< 0x08) ||| Temp1 : Nat) : Int))⟩

/-- `MCP9808_SetTlower`. `Limit` is an `int16_t`. -/
def MCP9808_SetTlower {σ : Type} (p_Device : MCP9808_t σ) (Limit : Int) (w : World σ) :
    Option (Outcome σ Unit) :=
  if p_Device.Internal.isInitialized = false then
    some ⟨MCP9808_ERR_NOT_INITIALIZED, p_Device, w, ()⟩
  else
    let Temp0 := ((Limit >>> 0x08) % 256).toNat
    let Temp1 := (Limit % 256).toNat
    match p_Device.I2C.Write with
    | none => none
    | some wr =>
      let r := busWrite wr MCP9808_REG_TEMP_LOWER [Temp0, Temp1] 2 p_Device w
      if r.status ≠ 0 then
        some ⟨MCP9808_ERR_INVALID_RESPONSE, p_Device, r.world, ()⟩
      else
        some ⟨MCP9808_ERR_OK, p_Device, r.world, ()⟩

/-- `MCP9808_GetTlower`. The destination is an `int16_t`. -/
def MCP9808_GetTlower {σ : Type} (p_Device : MCP9808_t σ) (p_Limit : Option Int) (w : World σ) :
    Option (Outcome σ (Option Int)) :=
  match p_Limit with
  | none => some ⟨MCP9808_ERR_INVALID_ARG, p_Device, w, none⟩
  | some old =>
    if p_Device.Internal.isInitialized = false then
      some ⟨MCP9808_ERR_NOT_INITIALIZED, p_Device, w, some old⟩
    else
      match p_Device.I2C.Read with
      | none => none
      | some rd =>
        let r := busRead rd MCP9808_REG_TEMP_LOWER 2 p_Device w
        if r.status ≠ 0 then
          some ⟨MCP9808_ERR_INVALID_RESPONSE, p_Device, r.world, some old⟩
        else
          let Temp0 := byteAt r.data 0
          let Temp1 := byteAt r.data 1
          some ⟨MCP9808_ERR_OK, p_Device, r.world,
                some (toInt16 (((Temp0 <<< 0x08) ||| Temp1 : Nat) : Int))⟩

/-- `MCP9808_SetTcrit`. `Limit` is an `int16_t`. -/
def MCP9808_SetTcrit {σ : Type} (p_Device : MCP9808_t σ) (Limit : Int) (w : World σ) :
    Option (Outcome σ Unit) :=
  if p_Device.Internal.isInitialized = false then
    some ⟨MCP9808_ERR_NOT_INITIALIZED, p_Device, w, ()⟩
  else
    let Temp0 := ((Limit >>> 0x08) % 256).toNat
    let Temp1 := (Limit % 256).toNat
    match p_Device.I2C.Write with
    | none => none
    | some wr =>
      let r := busWrite wr MCP9808_REG_TEMP_CRIT [Temp0, Temp1] 2 p_Device w
      if r.status ≠ 0 then
        some ⟨MCP9808_ERR_INVALID_RESPONSE, p_Device, r.world, ()⟩
      else
        some ⟨MCP9808_ERR_OK, p_Device, r.world, ()⟩

/-- `MCP9808_GetTcrit`. The destination is an `int16_t`. -/
def MCP9808_GetTcrit {σ : Type} (p_Device : MCP9808_t σ) (p_Limit : Option Int) (w : World σ) :
    Option (Outcome σ (Option Int)) :=
  match p_Limit with
  | none => some ⟨MCP9808_ERR_INVALID_ARG, p_Device, w, none⟩
  | some old =>
    if p_Device.Internal.isInitialized = false then
      some ⟨MCP9808_ERR_NOT_INITIALIZED, p_Device, w, some old⟩
    else
      match p_Device.I2C.Read with
      | none => none
      | some rd =>
        let r := busRead rd MCP9808_REG_TEMP_CRIT 2 p_Device w
        if r.status ≠ 0 then
          some ⟨MCP9808_ERR_INVALID_RESPONSE, p_Device, r.world, some old⟩
        else
          let Temp0 := byteAt r.data 0
          let Temp1 := byteAt r.data 1
          some ⟨MCP9808_ERR_OK, p_Device, r.world,
                some (toInt16 (((Temp0 <<< 0x08) ||| Temp1 : Nat) : Int))⟩

/-- `MCP9808_SetHysteresis`. -/
def MCP9808_SetHysteresis {σ : Type} (p_Device : MCP9808_t σ)
    (Hysteresis : MCP9808_Hysteresis_t) (w : World σ) : Option (Outcome σ Unit) :=
  MCP9808_ModifyBits p_Device MCP9808_REG_CONFIG (0x03 <<< 0x09) (Hysteresis.toNat <<< 0x09) w

/-- `MCP9808_GetHysteresis`. The destination holds the integer value of the
enumeration object. -/
def MCP9808_GetHysteresis {σ : Type} (p_Device : MCP9808_t σ) (p_Hysteresis : Option Nat)
    (w : World σ) : Option (Outcome σ (Option Nat)) :=
  match p_Hysteresis with
  | none => some ⟨MCP9808_ERR_INVALID_ARG, p_Device, w, none⟩
  | some old =>
    if p_Device.Internal.isInitialized = false then
      some ⟨MCP9808_ERR_NOT_INITIALIZED, p_Device, w, some old⟩
    else
      match p_Device.I2C.Read with
      | none => none
      | some rd =>
        let r := busRead rd MCP9808_REG_CONFIG 2 p_Device w
        if r.status ≠ 0 then
          some ⟨MCP9808_ERR_INVALID_RESPONSE, p_Device, r.world, some old⟩
        else
          let Temp0 := byteAt r.data 0
          some ⟨MCP9808_ERR_OK, p_Device, r.world, some ((Temp0 >>> 0x01) &&& 0x03)⟩

/-- `MCP9808_SetResolution`. -/
def MCP9808_SetResolution {σ : Type} (p_Device : MCP9808_t σ)
    (Resolution : MCP9808_Resolution_t) (w : World σ) : Option (Outcome σ Unit) :=
  if p_Device.Internal.isInitialized = false then
    some ⟨MCP9808_ERR_NOT_INITIALIZED, p_Device, w, ()⟩
  else
    let Temp := Resolution.toNat % 256
    match p_Device.I2C.Write with
    | none => none
    | some wr =>
      let r := busWrite wr MCP9808_REG_RESOLUTION [Temp] 1 p_Device w
      if r.status ≠ 0 then
        some ⟨MCP9808_ERR_INVALID_RESPONSE, p_Device, r.world, ()⟩
      else
        some ⟨MCP9808_ERR_OK, p_Device, r.world, ()⟩

/-- `MCP9808_GetResolution`. The destination holds the integer value of the
enumeration object. -/
def MCP9808_GetResolution {σ : Type} (p_Device : MCP9808_t σ) (p_Resolution : Option Nat)
    (w : World σ) : Option (Outcome σ (Option Nat)) :=
  match p_Resolution with
  | none => some ⟨MCP9808_ERR_INVALID_ARG, p_Device, w, none⟩
  | some old =>
    if p_Device.Internal.isInitialized = false then
      some ⟨MCP9808_ERR_NOT_INITIALIZED, p_Device, w, some old⟩
    else
      match p_Device.I2C.Read with
      | none => none
      | some rd =>
        let r := busRead rd MCP9808_REG_RESOLUTION 1 p_Device w
        if r.status ≠ 0 then
          some ⟨MCP9808_ERR_INVALID_RESPONSE, p_Device, r.world, some old⟩
        else
          let Temp := byteAt r.data 0
          some ⟨MCP9808_ERR_OK, p_Device, r.world, some Temp⟩

/-! ## A simulated sensor, used to run the driver on concrete inputs -/

/-- Register file of the simulated sensor: register number and content. -/
abbrev SimDev := List (Nat × List Nat)

/-- Transport read of the simulated sensor: always succeeds and returns the
stored content of the register. -/
def simRead : MCP9808_Read_t SimDev :=
  fun Register _ _ s => (0, (s.lookup Register).getD [], s)

/-- Transport write of the simulated sensor: always succeeds and stores the
bytes. -/
def simWrite : MCP9808_Write_t SimDev :=
  fun Register data _ _ s => (0, (Register, data) :: s)

/-- A handle as the example program sets it up (address 0x18, both transport
functions, no alarm callbacks), with the given internal flags. -/
def simHandle (isInitialized isShutdown : Bool) : MCP9808_t SimDev :=
  { ID := 0, Revision := 0
    TCrit_Alarm := none, TUpper_Alarm := none, TLower_Alarm := none
    I2C := { Write := some simWrite, Read := some simRead, Address := 0x18 }
    Internal := { isInitialized := isInitialized, isShutdown := isShutdown } }

/-- An environment holding the given register file and an empty log. -/
def simWorld (regs : SimDev) : World SimDev := { ext := regs, log := [] }


/-- A register file of a sensor that answers like an unlocked MCP9808:
manufacturer ID `0x0054`, device ID `0x04` revision `0x01`, configuration
`0x001F`. -/
def goodRegs : SimDev := [(6, [0x00, 0x54]), (7, [0x04, 0x01]), (1, [0x00, 0x1F])]

/-- A register file whose manufacturer-ID register does not hold `0x0054`. -/
def wrongRegs : SimDev := [(6, [0x00, 0x55]), (7, [0x04, 0x01]), (1, [0x00, 0x1F])]

/-- Transport read of the simulated sensor that fails on register `bad` and
behaves like `simRead` on every other register. -/
def flakyRead (bad : Nat) : MCP9808_Read_t SimDev :=
  fun Register Size Address s =>
    if Register = bad then (-1, [], s) else simRead Register Size Address s

/-- The handle `simHandle`, reading through `flakyRead bad`. -/
def flakyHandle (bad : Nat) (isInitialized isShutdown : Bool) : MCP9808_t SimDev :=
  { simHandle isInitialized isShutdown with
    I2C := { Write := some simWrite, Read := some (flakyRead bad), Address := 0x18 } }

/-- A register file of a sensor whose configuration register has both lock
bits (and the shutdown bit) set. -/
def lockedRegs : SimDev := [(6, [0x00, 0x54]), (7, [0x04, 0x01]), (1, [0x01, 0xC0])]

/-- Transport write that always fails. -/
def failWrite : MCP9808_Write_t SimDev :=
  fun _ _ _ _ s => (-1, s)

/-- The handle `simHandle`, writing through `failWrite`. -/
def brokenWriteHandle (isInitialized isShutdown : Bool) : MCP9808_t SimDev :=
  { simHandle isInitialized isShutdown with
    I2C := { Write := some failWrite, Read := some simRead, Address := 0x18 } }

/-- An alarm callback of the application: it leaves a note in register slot
`100 + n` of the simulated environment. -/
def noteAlarm (n : Nat) : MCP9808_Alarm_t SimDev :=
  fun Temperature s => (100 + n, [Temperature.toNat]) :: s

/-- The handle `simHandle true false` with the chosen alarm callbacks
registered. -/
def alarmHandle (crit upper lower : Bool) : MCP9808_t SimDev :=
  { simHandle true false with
    TCrit_Alarm := if crit then some (noteAlarm 0) else none
    TUpper_Alarm := if upper then some (noteAlarm 1) else none
    TLower_Alarm := if lower then some (noteAlarm 2) else none }

/-- The events an operation appended to a log that had `before` entries. -/
def newEvents (before after : List Event) : List Event := after.drop before.length

/-- The value `MCP9808_GetTemperature` decodes from the two bytes of the
ambient register (lines 175-184), as a function of those bytes. -/
def decodedTemperature (Temp0 Temp1 : Nat) : Int :=
  if Temp0 &&& 0x10 ≠ 0 then toInt8 (256 - (wholeDegrees Temp0 Temp1 : Int))
  else toInt8 (wholeDegrees Temp0 Temp1 : Int)

/-- An initialized handle whose bus address was afterwards set below `0x18`. -/
def badAddressHandle : MCP9808_t SimDev :=
  { simHandle true false with
    I2C := { Write := some simWrite, Read := some simRead, Address := 0x10 } }

/-- Transport write of the simulated sensor that fails exactly when the bytes
presented are `bad`, and behaves like `simWrite` otherwise. -/
def pickyWrite (bad : List Nat) : MCP9808_Write_t SimDev :=
  fun Register data Size Address s =>
    if data = bad then (-1, s) else simWrite Register data Size Address s

/-- The handle `simHandle`, writing through `pickyWrite bad`. -/
def pickyHandle (bad : List Nat) (isInitialized isShutdown : Bool) : MCP9808_t SimDev :=
  { simHandle isInitialized isShutdown with
    I2C := { Write := some (pickyWrite bad), Read := some simRead, Address := 0x18 } }

/-- The environment after the step "if the flag is set and the callback is
registered, invoke it with the temperature": the callback applied to the
environment, or the environment as it was. -/
def invokeIf {σ : Type} (flag : Prop) [Decidable flag] (cb : Option (MCP9808_Alarm_t σ))
    (Temperature : Int) (s : σ) : σ :=
  if flag then
    match cb with
    | some f => f Temperature s
    | none => s
  else s

/-- The 16-bit big-endian value held by a 2-byte register buffer. -/
def configWord (data : List Nat) : Nat := (byteAt data 0 <<< 0x08) ||| byteAt data 1

/-! ## Arithmetic of the temperature decode -/

theorem byteAt_lt (data : List Nat) (i : Nat) : byteAt data i < 256 := by
  unfold byteAt
  omega

theorem toInt8_of_fits (x : Int) (hlo : -128 ≤ x) (hhi : x ≤ 127) : toInt8 x = x := by
  unfold toInt8
  omega

theorem toInt8_range (x : Int) : -128 ≤ toInt8 x ∧ toInt8 x ≤ 127 := by
  unfold toInt8
  omega

theorem wholeDegrees_eq_div (b0 b1 : Nat) :
    wholeDegrees b0 b1 = (b0 % 16) * 16 + b1 / 16 := by
  have h : b0 &&& 0x0F = b0 % 16 := Nat.and_pow_two_sub_one_eq_mod b0 4
  unfold wholeDegrees
  rw [h, Nat.shiftLeft_eq, Nat.shiftRight_eq_div_pow]

theorem magnitude_eq (b0 b1 : Nat) (h1 : b1 < 256) :
    ((b0 &&& 0x0F) <<< 0x08) ||| b1 = (b0 % 16) * 256 + b1 := by
  have h : b0 &&& 0x0F = b0 % 16 := Nat.and_pow_two_sub_one_eq_mod b0 4
  have hor := Nat.mul_add_lt_is_or (i := 8) (b := b1) (by norm_num; exact h1) (b0 % 16)
  rw [h, Nat.shiftLeft_eq, ← Nat.mul_comm (2 ^ 8), ← hor]

theorem signBit_test (b : Nat) :
    ((b &&& (0x01 <<< MCP9808_BIT_SIGN)) >>> MCP9808_BIT_SIGN ≠ 0) ↔ b &&& 0x10 ≠ 0 := by
  have h : (0x01 <<< MCP9808_BIT_SIGN) = 0x10 := by decide
  rw [h, Nat.shiftRight_eq_div_pow]
  have h16 : b &&& 0x10 ≤ 0x10 := Nat.and_le_right
  have hbit : b &&& 0x10 = 0 ∨ b &&& 0x10 = 0x10 := by
    have := Nat.and_two_pow b 4
    norm_num at this
    rcases Bool.eq_false_or_eq_true (b.testBit 4) with hb | hb
    · right; simp [this, hb]
    · left; simp [this, hb]
  unfold MCP9808_BIT_SIGN
  rcases hbit with h0 | h1
  · simp [h0]
  · simp [h1]

theorem and8_eq_zero_iff (b : Nat) : b &&& 0x08 = 0 ↔ b % 16 < 8 := by
  have h := Nat.and_two_pow b 3
  have ht := Nat.testBit_to_div_mod (x := b) (i := 3)
  norm_num at h ht
  rcases Bool.eq_false_or_eq_true (b.testBit 3) with hb | hb
  · rw [hb] at ht
    simp [h, hb]
    have : b / 8 % 2 = 1 := by simpa using ht.symm
    omega
  · rw [hb] at ht
    simp [h, hb]
    have : ¬ (b / 8 % 2 = 1) := by simpa using ht.symm
    omega

/-! ## Temperature read-out -/

/-- On an initialized, active handle whose transport read of the ambient
register succeeds, `MCP9808_GetTemperature` returns OK, leaves the handle
alone and delivers the `int8_t` store of the branch selected by the sign bit. -/
theorem GetTemperature_ok {σ : Type} (p_Device : MCP9808_t σ) (w : World σ)
    (rd : MCP9808_Read_t σ) (old : Int) (data : List Nat) (e : σ)
    (hinit : p_Device.Internal.isInitialized = true)
    (hactive : p_Device.Internal.isShutdown = false)
    (hrd : p_Device.I2C.Read = some rd)
    (hread : rd MCP9808_REG_TEMP_AMBIENT 2 p_Device.I2C.Address w.ext = (0, data, e)) :
    ∃ r, MCP9808_GetTemperature p_Device (some old) w = some r ∧
      r.Error = MCP9808_ERR_OK ∧ r.Device = p_Device ∧
      r.out = some (if byteAt data 0 &&& 0x10 ≠ 0
        then toInt8 (256 - (wholeDegrees (byteAt data 0) (byteAt data 1) : Int))
        else toInt8 (wholeDegrees (byteAt data 0) (byteAt data 1) : Int)) := by
  simp only [MCP9808_GetTemperature, hinit, hactive, hrd, busRead, hread, signBit_test]
  simp

/-- C1 (as amended): with the sign bit (bit 4 of byte 0) clear and a
whole-degree magnitude that fits an `int8_t` (bit 3 of byte 0 clear, i.e. at
most 127), on an initialized, non-shutdown handle whose transport read
succeeds, `MCP9808_GetTemperature` returns OK and delivers `floor(M / 16)`,
`M = ((b0 & 0x0F) << 8) | b1`, which is `((b0 & 0x0F) << 4) + (b1 >> 4)`. -/
theorem C1_GetTemperature_sign_clear {σ : Type} (p_Device : MCP9808_t σ) (w : World σ)
    (rd : MCP9808_Read_t σ) (old : Int) (data : List Nat) (e : σ)
    (hinit : p_Device.Internal.isInitialized = true)
    (hactive : p_Device.Internal.isShutdown = false)
    (hrd : p_Device.I2C.Read = some rd)
    (hread : rd MCP9808_REG_TEMP_AMBIENT 2 p_Device.I2C.Address w.ext = (0, data, e))
    (hsign : byteAt data 0 &&& 0x10 = 0)
    (hfit : byteAt data 0 &&& 0x08 = 0) :
    ∃ r, MCP9808_GetTemperature p_Device (some old) w = some r ∧
      r.Error = MCP9808_ERR_OK ∧
      r.out = some (((((byteAt data 0 &&& 0x0F) <<< 0x08) ||| byteAt data 1 : Nat) : Int) / 16) ∧
      r.out = some ((((byteAt data 0 &&& 0x0F) <<< 0x04) + (byteAt data 1 >>> 0x04) : Nat) : Int) := by
  obtain ⟨r, hr, herr, _, hout⟩ :=
    GetTemperature_ok p_Device w rd old data e hinit hactive hrd hread
  have h1 := byteAt_lt data 1
  have hw := wholeDegrees_eq_div (byteAt data 0) (byteAt data 1)
  have hlow := (and8_eq_zero_iff (byteAt data 0)).1 hfit
  have hM := magnitude_eq (byteAt data 0) (byteAt data 1) h1
  have hT : toInt8 (wholeDegrees (byteAt data 0) (byteAt data 1) : Int)
      = (wholeDegrees (byteAt data 0) (byteAt data 1) : Int) := by
    apply toInt8_of_fits <;> omega
  refine ⟨r, hr, herr, ?_, ?_⟩
  · rw [hout, hM]
    simp only [hsign, ne_eq, not_true_eq_false, if_false, hT]
    congr 1
    rw [hw]
    omega
  · rw [hout]
    simp only [hsign, ne_eq, not_true_eq_false, if_false, hT]
    rfl

/-- C1, witness: the register pair `{0x01, 0x90}` (25 °C) on the simulated sensor. -/
theorem C1_GetTemperature_sign_clear_witness :
    ∃ r, MCP9808_GetTemperature (simHandle true false) (some 0)
        (simWorld [(5, [0x01, 0x90])]) = some r ∧
      r.Error = MCP9808_ERR_OK ∧
      r.out = some (((((byteAt [0x01, 0x90] 0 &&& 0x0F) <<< 0x08)
        ||| byteAt [0x01, 0x90] 1 : Nat) : Int) / 16) ∧
      r.out = some ((((byteAt [0x01, 0x90] 0 &&& 0x0F) <<< 0x04)
        + (byteAt [0x01, 0x90] 1 >>> 0x04) : Nat) : Int) :=
  C1_GetTemperature_sign_clear (simHandle true false) (simWorld [(5, [0x01, 0x90])])
    simRead 0 [0x01, 0x90] [(5, [0x01, 0x90])] rfl rfl rfl rfl (by decide) (by decide)

/-- C1 as stated fails: the pair `{0x08, 0x00}` has the sign bit clear and
`floor(M / 16) = 128`, yet the driver returns OK and delivers `-128`. -/
theorem C1_counterexample :
    byteAt [0x08, 0x00] 0 &&& 0x10 = 0 ∧
    (MCP9808_GetTemperature (simHandle true false) (some 0)
        (simWorld [(5, [0x08, 0x00])])).map (fun r => (r.Error, r.out))
      = some (MCP9808_ERR_OK, some (-128)) ∧
    ((((byteAt [0x08, 0x00] 0 &&& 0x0F) <<< 0x08) ||| byteAt [0x08, 0x00] 1 : Nat) : Int) / 16
      = 128 := by
  decide

/-- C2 (as amended): with the sign bit (bit 4 of byte 0) set, a successful
`MCP9808_GetTemperature` delivers the `int8_t` store of `256 - w`,
`w = ((b0 & 0x0F) << 4) + (b1 >> 4)`: the delivered value lies within
`[-128, 127]`, is congruent to `256 - w` modulo 256, and is the integer
`256 - w` itself exactly when `129 ≤ w`. -/
theorem C2_GetTemperature_sign_set {σ : Type} (p_Device : MCP9808_t σ) (w : World σ)
    (rd : MCP9808_Read_t σ) (old : Int) (data : List Nat) (e : σ)
    (hinit : p_Device.Internal.isInitialized = true)
    (hactive : p_Device.Internal.isShutdown = false)
    (hrd : p_Device.I2C.Read = some rd)
    (hread : rd MCP9808_REG_TEMP_AMBIENT 2 p_Device.I2C.Address w.ext = (0, data, e))
    (hsign : byteAt data 0 &&& 0x10 ≠ 0) :
    ∃ r T, MCP9808_GetTemperature p_Device (some old) w = some r ∧
      r.Error = MCP9808_ERR_OK ∧ r.out = some T ∧
      -128 ≤ T ∧ T ≤ 127 ∧
      (T - (256 - ((((byteAt data 0 &&& 0x0F) <<< 0x04)
        + (byteAt data 1 >>> 0x04) : Nat) : Int))) % 256 = 0 ∧
      (T = 256 - ((((byteAt data 0 &&& 0x0F) <<< 0x04)
          + (byteAt data 1 >>> 0x04) : Nat) : Int)
        ↔ 129 ≤ ((byteAt data 0 &&& 0x0F) <<< 0x04) + (byteAt data 1 >>> 0x04)) := by
  obtain ⟨r, hr, herr, _, hout⟩ :=
    GetTemperature_ok p_Device w rd old data e hinit hactive hrd hread
  have h1 := byteAt_lt data 1
  have hw := wholeDegrees_eq_div (byteAt data 0) (byteAt data 1)
  have hwd : ((byteAt data 0 &&& 0x0F) <<< 0x04) + (byteAt data 1 >>> 0x04)
      = wholeDegrees (byteAt data 0) (byteAt data 1) := rfl
  rw [if_pos hsign] at hout
  refine ⟨r, _, hr, herr, hout, ?_, ?_, ?_, ?_⟩
  · exact (toInt8_range _).1
  · exact (toInt8_range _).2
  · rw [hwd]
    unfold toInt8
    omega
  · rw [hwd]
    unfold toInt8
    omega

/-- C2, witness: the register pair `{0x1F, 0xF0}` (the sensor's -1 °C). -/
theorem C2_GetTemperature_sign_set_witness :
    ∃ r T, MCP9808_GetTemperature (simHandle true false) (some 0)
        (simWorld [(5, [0x1F, 0xF0])]) = some r ∧
      r.Error = MCP9808_ERR_OK ∧ r.out = some T ∧
      -128 ≤ T ∧ T ≤ 127 ∧
      (T - (256 - ((((byteAt [0x1F, 0xF0] 0 &&& 0x0F) <<< 0x04)
        + (byteAt [0x1F, 0xF0] 1 >>> 0x04) : Nat) : Int))) % 256 = 0 ∧
      (T = 256 - ((((byteAt [0x1F, 0xF0] 0 &&& 0x0F) <<< 0x04)
          + (byteAt [0x1F, 0xF0] 1 >>> 0x04) : Nat) : Int)
        ↔ 129 ≤ ((byteAt [0x1F, 0xF0] 0 &&& 0x0F) <<< 0x04)
          + (byteAt [0x1F, 0xF0] 1 >>> 0x04)) :=
  C2_GetTemperature_sign_set (simHandle true false) (simWorld [(5, [0x1F, 0xF0])])
    simRead 0 [0x1F, 0xF0] [(5, [0x1F, 0xF0])] rfl rfl rfl rfl (by decide)

/-- C2 as stated fails: the pair `{0x10, 0x00}` has the sign bit set and
`w = 0`; the integer `256 - w = 256` is outside `[-128, 127]` and the driver
delivers `0`, not `256`. -/
theorem C2_counterexample :
    byteAt [0x10, 0x00] 0 &&& 0x10 ≠ 0 ∧
    (MCP9808_GetTemperature (simHandle true false) (some 7)
        (simWorld [(5, [0x10, 0x00])])).map (fun r => (r.Error, r.out))
      = some (MCP9808_ERR_OK, some 0) ∧
    (256 : Int) - ((((byteAt [0x10, 0x00] 0 &&& 0x0F) <<< 0x04)
      + (byteAt [0x10, 0x00] 1 >>> 0x04) : Nat) : Int) = 256 ∧
    ¬ ((256 : Int) - ((((byteAt [0x10, 0x00] 0 &&& 0x0F) <<< 0x04)
      + (byteAt [0x10, 0x00] 1 >>> 0x04) : Nat) : Int) ≤ 127) := by
  decide

/-- C3: the sensor's encoding of -1 °C, the pair `{0x1F, 0xF0}`, has the sign
bit set, and `MCP9808_GetTemperature` returns OK and delivers `+1`. -/
theorem C3_GetTemperature_negative_reads_positive :
    byteAt [0x1F, 0xF0] 0 &&& 0x10 ≠ 0 ∧
    (MCP9808_GetTemperature (simHandle true false) (some 0)
        (simWorld [(5, [0x1F, 0xF0])])).map (fun r => (r.Error, r.out))
      = some (MCP9808_ERR_OK, some 1) := by
  decide

/-! ## Initialization -/

theorem lockMask_eq :
    ((0x01 <<< MCP9808_BIT_CRIT_LOCK) ||| (0x01 <<< MCP9808_BIT_WIN_LOCK)) = 0xC0 := by
  decide

/-- `MCP9808_Init` past the argument check and the idempotence shortcut, as a
function of the three transport reads. -/
theorem Init_unfold {σ : Type} (p_Device : MCP9808_t σ) (w : World σ)
    (rd : MCP9808_Read_t σ) (wr : MCP9808_Write_t σ)
    (hrd : p_Device.I2C.Read = some rd) (hwr : p_Device.I2C.Write = some wr)
    (haddr : 0x18 ≤ p_Device.I2C.Address)
    (huninit : p_Device.Internal.isInitialized = false) :
    MCP9808_Init p_Device w =
      let r1 := busRead rd MCP9808_REG_MANUFACTURER_ID 2 p_Device w
      if r1.status ≠ 0 then ⟨MCP9808_ERR_INVALID_RESPONSE, p_Device, r1.world, ()⟩
      else if ((byteAt r1.data 0 <<< 0x08) ||| byteAt r1.data 1) % 65536
          ≠ MCP9808_MANUFACTURER_ID then
        ⟨MCP9808_ERR_NO_DEVICE, p_Device, r1.world, ()⟩
      else
        let r2 := busRead rd MCP9808_REG_DEVICE_ID 2 p_Device r1.world
        if r2.status ≠ 0 then ⟨MCP9808_ERR_INVALID_RESPONSE, p_Device, r2.world, ()⟩
        else
          let r3 := busRead rd MCP9808_REG_CONFIG 2 p_Device r2.world
          if r3.status ≠ 0 then ⟨MCP9808_ERR_INVALID_RESPONSE, p_Device, r3.world, ()⟩
          else if byteAt r3.data 1 &&& 0xC0 = 0xC0 then
            ⟨MCP9808_ERR_LOCKED,
             { p_Device with ID := byteAt r3.data 0, Revision := byteAt r3.data 1 },
             r3.world, ()⟩
          else
            ⟨MCP9808_ERR_OK,
             { p_Device with
                ID := byteAt r3.data 0, Revision := byteAt r3.data 1
                Internal := { isInitialized := true, isShutdown := false } },
             r3.world, ()⟩ := by
  have hna : ¬ p_Device.I2C.Address < 0x18 := by omega
  cases p_Device with
  | mk ID Revision c u l i2c internal =>
    cases internal with
    | mk ini sd =>
      simp only at hrd hwr hna huninit
      subst huninit
      simp only [MCP9808_Init, hrd, hwr, hna, if_false, lockMask_eq, Bool.false_eq_true]

theorem errors_distinct :
    MCP9808_ERR_OK ≠ MCP9808_ERR_INVALID_ARG ∧
    MCP9808_ERR_INVALID_RESPONSE ≠ MCP9808_ERR_INVALID_ARG ∧
    MCP9808_ERR_NO_DEVICE ≠ MCP9808_ERR_INVALID_ARG ∧
    MCP9808_ERR_LOCKED ≠ MCP9808_ERR_INVALID_ARG := by
  decide

/-- C4: on the simulated sensor (device-ID register `{0x04, 0x01}`,
configuration register `{0x00, 0x1F}`) `MCP9808_Init` returns OK after the
three reads, and the handle's `ID` and `Revision` hold the two configuration
bytes `0x00`, `0x1F`, not the bytes `0x04`, `0x01` read from register `0x07`. -/
theorem C4_Init_stores_config_bytes :
    (MCP9808_Init (simHandle false false) (simWorld goodRegs)).Error = MCP9808_ERR_OK ∧
    (MCP9808_Init (simHandle false false) (simWorld goodRegs)).world.log
      = [Event.read MCP9808_REG_MANUFACTURER_ID 2 0 [0x00, 0x54],
         Event.read MCP9808_REG_DEVICE_ID 2 0 [0x04, 0x01],
         Event.read MCP9808_REG_CONFIG 2 0 [0x00, 0x1F]] ∧
    (MCP9808_Init (simHandle false false) (simWorld goodRegs)).Device.ID = 0x00 ∧
    (MCP9808_Init (simHandle false false) (simWorld goodRegs)).Device.Revision = 0x1F ∧
    (MCP9808_Init (simHandle false false) (simWorld goodRegs)).Device.ID
      ≠ byteAt [0x04, 0x01] 0 ∧
    (MCP9808_Init (simHandle false false) (simWorld goodRegs)).Device.Revision
      ≠ byteAt [0x04, 0x01] 1 := by
  decide

/-- C5: on a handle whose initialized flag is false, `MCP9808_SetHysteresis`
does not return NotInitialized: it reads and writes the configuration
register and returns OK, while its sibling `MCP9808_SetResolution` on the same
handle returns NotInitialized without any transport call. -/
theorem C5_SetHysteresis_skips_initialized_check :
    (simHandle false false).Internal.isInitialized = false ∧
    (MCP9808_SetHysteresis (simHandle false false)
        MCP9808_Hysteresis_t.MCP9808_HYSTERESIS_6 (simWorld goodRegs)).map
        (fun r => (r.Error, r.world.log))
      = some (MCP9808_ERR_OK,
          [Event.read MCP9808_REG_CONFIG 2 0 [0x00, 0x1F],
           Event.write MCP9808_REG_CONFIG [0x06, 0x1F] 0]) ∧
    (MCP9808_SetResolution (simHandle false false)
        MCP9808_Resolution_t.MCP9808_RESOLUTION_00625 (simWorld goodRegs)).map
        (fun r => (r.Error, r.world.log))
      = some (MCP9808_ERR_NOT_INITIALIZED, []) := by
  decide

/-- C8: `MCP9808_Init` returns InvalidArgument if and only if the Read
callback is null, the Write callback is null, or the bus address is below
`0x18`; and when it does, the handle and the environment (state and log of
transport calls) are exactly as before the call. -/
theorem C8_Init_invalid_argument {σ : Type} (p_Device : MCP9808_t σ) (w : World σ) :
    ((MCP9808_Init p_Device w).Error = MCP9808_ERR_INVALID_ARG ↔
      (p_Device.I2C.Read = none ∨ p_Device.I2C.Write = none ∨ p_Device.I2C.Address < 0x18)) ∧
    ((p_Device.I2C.Read = none ∨ p_Device.I2C.Write = none ∨ p_Device.I2C.Address < 0x18) →
      (MCP9808_Init p_Device w).Device = p_Device ∧ (MCP9808_Init p_Device w).world = w) := by
  obtain ⟨hok, hresp, hnodev, hlocked⟩ := errors_distinct
  cases hrd : p_Device.I2C.Read with
  | none => simp [MCP9808_Init, hrd]
  | some rd =>
    cases hwr : p_Device.I2C.Write with
    | none => simp [MCP9808_Init, hrd, hwr]
    | some wr =>
      by_cases haddr : p_Device.I2C.Address < 0x18
      · simp [MCP9808_Init, hrd, hwr, haddr]
      · cases hinit : p_Device.Internal.isInitialized with
        | true => simp [MCP9808_Init, hrd, hwr, haddr, hinit, hok]
        | false =>
          have hge : 0x18 ≤ p_Device.I2C.Address := by omega
          rw [Init_unfold p_Device w rd wr hrd hwr hge hinit]
          simp only [haddr, or_false, false_or, reduceCtorEq, false_implies, and_true, iff_false]
          split_ifs <;> assumption

/-- On an uninitialized handle with valid callbacks and address, the log of
`MCP9808_Init` continues the old log with the manufacturer-ID read. -/
theorem Init_log_head {σ : Type} (p_Device : MCP9808_t σ) (w : World σ)
    (rd : MCP9808_Read_t σ) (wr : MCP9808_Write_t σ)
    (hrd : p_Device.I2C.Read = some rd) (hwr : p_Device.I2C.Write = some wr)
    (haddr : 0x18 ≤ p_Device.I2C.Address)
    (huninit : p_Device.Internal.isInitialized = false) :
    ∃ rest, (MCP9808_Init p_Device w).world.log
      = w.log ++ Event.read MCP9808_REG_MANUFACTURER_ID 2
          (rd MCP9808_REG_MANUFACTURER_ID 2 p_Device.I2C.Address w.ext).1
          (rd MCP9808_REG_MANUFACTURER_ID 2 p_Device.I2C.Address w.ext).2.1 :: rest := by
  rw [Init_unfold p_Device w rd wr hrd hwr haddr huninit]
  simp only [busRead]
  split_ifs
  · exact ⟨[], rfl⟩
  · exact ⟨[], rfl⟩
  · exact ⟨_, by simp only [List.append_assoc, List.singleton_append]; rfl⟩
  · exact ⟨_, by simp only [List.append_assoc, List.singleton_append]; rfl⟩
  · exact ⟨_, by simp only [List.append_assoc, List.singleton_append]; rfl⟩
  · exact ⟨_, by simp only [List.append_assoc, List.singleton_append]; rfl⟩

/-- C9: `MCP9808_Init` is idempotent. On a handle with valid callbacks and
address whose initialized flag is already true it returns OK with the handle
and the environment untouched (no transport call). Hence on a fresh handle
and a well-behaved device (three successful reads, manufacturer ID `0x0054`,
not locked) the first call returns OK after exactly the reads of `0x06`,
`0x07`, `0x01`, and the second call returns OK and adds nothing. -/
theorem C9_Init_idempotent {σ : Type} (p_Device : MCP9808_t σ) (w : World σ)
    (rd : MCP9808_Read_t σ) (wr : MCP9808_Write_t σ)
    (hrd : p_Device.I2C.Read = some rd) (hwr : p_Device.I2C.Write = some wr)
    (haddr : 0x18 ≤ p_Device.I2C.Address) :
    (p_Device.Internal.isInitialized = true →
      MCP9808_Init p_Device w = ⟨MCP9808_ERR_OK, p_Device, w, ()⟩) ∧
    (∀ (d1 d2 d3 : List Nat) (e1 e2 e3 : σ),
      p_Device.Internal.isInitialized = false →
      rd MCP9808_REG_MANUFACTURER_ID 2 p_Device.I2C.Address w.ext = (0, d1, e1) →
      ((byteAt d1 0 <<< 0x08) ||| byteAt d1 1) = MCP9808_MANUFACTURER_ID →
      rd MCP9808_REG_DEVICE_ID 2 p_Device.I2C.Address e1 = (0, d2, e2) →
      rd MCP9808_REG_CONFIG 2 p_Device.I2C.Address e2 = (0, d3, e3) →
      byteAt d3 1 &&& 0xC0 ≠ 0xC0 →
      (MCP9808_Init p_Device w).Error = MCP9808_ERR_OK ∧
      (MCP9808_Init p_Device w).Device.Internal.isInitialized = true ∧
      (MCP9808_Init p_Device w).world.log
        = w.log ++ [Event.read MCP9808_REG_MANUFACTURER_ID 2 0 d1,
                    Event.read MCP9808_REG_DEVICE_ID 2 0 d2,
                    Event.read MCP9808_REG_CONFIG 2 0 d3] ∧
      MCP9808_Init (MCP9808_Init p_Device w).Device (MCP9808_Init p_Device w).world
        = ⟨MCP9808_ERR_OK, (MCP9808_Init p_Device w).Device,
            (MCP9808_Init p_Device w).world, ()⟩) := by
  have hna : ¬ p_Device.I2C.Address < 0x18 := by omega
  constructor
  · intro hinit
    simp only [MCP9808_Init, hrd, hwr, hna, hinit, if_false, if_true]
  · intro d1 d2 d3 e1 e2 e3 huninit h1 hid h2 h3 hlock
    have hid2 : ((byteAt d1 0 <<< 0x08) ||| byteAt d1 1) % 65536 = MCP9808_MANUFACTURER_ID := by
      rw [hid]; decide
    have hI : MCP9808_Init p_Device w
        = ⟨MCP9808_ERR_OK,
           { p_Device with
              ID := byteAt d3 0, Revision := byteAt d3 1
              Internal := { isInitialized := true, isShutdown := false } },
           { ext := e3,
             log := w.log ++ [Event.read MCP9808_REG_MANUFACTURER_ID 2 0 d1,
                              Event.read MCP9808_REG_DEVICE_ID 2 0 d2,
                              Event.read MCP9808_REG_CONFIG 2 0 d3] }, ()⟩ := by
      rw [Init_unfold p_Device w rd wr hrd hwr haddr huninit]
      simp [busRead, h1, h2, h3, hid2, hlock]
    rw [hI]
    refine ⟨rfl, rfl, rfl, ?_⟩
    simp only [MCP9808_Init, hrd, hwr, hna, if_false, if_true]

/-- C9, witness: an already initialized handle, and a fresh handle run twice
against the simulated sensor. -/
theorem C9_Init_idempotent_witness :
    MCP9808_Init (simHandle true false) (simWorld goodRegs)
      = ⟨MCP9808_ERR_OK, simHandle true false, simWorld goodRegs, ()⟩ ∧
    ((MCP9808_Init (simHandle false false) (simWorld goodRegs)).Error = MCP9808_ERR_OK ∧
     (MCP9808_Init (simHandle false false) (simWorld goodRegs)).Device.Internal.isInitialized
        = true ∧
     (MCP9808_Init (simHandle false false) (simWorld goodRegs)).world.log
        = (simWorld goodRegs).log ++ [Event.read MCP9808_REG_MANUFACTURER_ID 2 0 [0x00, 0x54],
            Event.read MCP9808_REG_DEVICE_ID 2 0 [0x04, 0x01],
            Event.read MCP9808_REG_CONFIG 2 0 [0x00, 0x1F]] ∧
     MCP9808_Init (MCP9808_Init (simHandle false false) (simWorld goodRegs)).Device
        (MCP9808_Init (simHandle false false) (simWorld goodRegs)).world
      = ⟨MCP9808_ERR_OK, (MCP9808_Init (simHandle false false) (simWorld goodRegs)).Device,
          (MCP9808_Init (simHandle false false) (simWorld goodRegs)).world, ()⟩) :=
  ⟨(C9_Init_idempotent (simHandle true false) (simWorld goodRegs) simRead simWrite
      rfl rfl (by decide)).1 rfl,
   (C9_Init_idempotent (simHandle false false) (simWorld goodRegs) simRead simWrite
      rfl rfl (by decide)).2 [0x00, 0x54] [0x04, 0x01] [0x00, 0x1F] goodRegs goodRegs goodRegs
      rfl rfl (by decide) rfl rfl (by decide)⟩

theorem be16_lt (b0 b1 : Nat) (h0 : b0 < 256) (h1 : b1 < 256) :
    (b0 <<< 0x08) ||| b1 < 65536 := by
  have hor := Nat.mul_add_lt_is_or (i := 8) (b := b1) (by norm_num; exact h1) b0
  rw [Nat.shiftLeft_eq, ← Nat.mul_comm (2 ^ 8), ← hor]
  omega

/-- C10: on an uninitialized handle with valid callbacks and address.
(a) If the manufacturer-ID read succeeds with bytes that do not form `0x0054`,
`MCP9808_Init` returns NoDevice after exactly that one read, initialized stays
false, and a following `MCP9808_Init` issues the manufacturer-ID read again.
(b), (c), (d) If the first, the second or the third read returns a nonzero
status, `MCP9808_Init` returns InvalidResponse with initialized false. -/
theorem C10_Init_failures {σ : Type} (p_Device : MCP9808_t σ) (w : World σ)
    (rd : MCP9808_Read_t σ) (wr : MCP9808_Write_t σ)
    (hrd : p_Device.I2C.Read = some rd) (hwr : p_Device.I2C.Write = some wr)
    (haddr : 0x18 ≤ p_Device.I2C.Address)
    (huninit : p_Device.Internal.isInitialized = false) :
    (∀ (d1 : List Nat) (e1 : σ),
      rd MCP9808_REG_MANUFACTURER_ID 2 p_Device.I2C.Address w.ext = (0, d1, e1) →
      ((byteAt d1 0 <<< 0x08) ||| byteAt d1 1) ≠ MCP9808_MANUFACTURER_ID →
      (MCP9808_Init p_Device w).Error = MCP9808_ERR_NO_DEVICE ∧
      (MCP9808_Init p_Device w).world.log
        = w.log ++ [Event.read MCP9808_REG_MANUFACTURER_ID 2 0 d1] ∧
      (MCP9808_Init p_Device w).Device.Internal.isInitialized = false ∧
      ∃ rest,
        (MCP9808_Init (MCP9808_Init p_Device w).Device (MCP9808_Init p_Device w).world).world.log
          = (MCP9808_Init p_Device w).world.log
            ++ Event.read MCP9808_REG_MANUFACTURER_ID 2
                (rd MCP9808_REG_MANUFACTURER_ID 2 p_Device.I2C.Address e1).1
                (rd MCP9808_REG_MANUFACTURER_ID 2 p_Device.I2C.Address e1).2.1 :: rest) ∧
    (∀ (s1 : Int) (d1 : List Nat) (e1 : σ),
      rd MCP9808_REG_MANUFACTURER_ID 2 p_Device.I2C.Address w.ext = (s1, d1, e1) →
      s1 ≠ 0 →
      (MCP9808_Init p_Device w).Error = MCP9808_ERR_INVALID_RESPONSE ∧
      (MCP9808_Init p_Device w).Device.Internal.isInitialized = false) ∧
    (∀ (d1 : List Nat) (e1 : σ) (s2 : Int) (d2 : List Nat) (e2 : σ),
      rd MCP9808_REG_MANUFACTURER_ID 2 p_Device.I2C.Address w.ext = (0, d1, e1) →
      ((byteAt d1 0 <<< 0x08) ||| byteAt d1 1) = MCP9808_MANUFACTURER_ID →
      rd MCP9808_REG_DEVICE_ID 2 p_Device.I2C.Address e1 = (s2, d2, e2) →
      s2 ≠ 0 →
      (MCP9808_Init p_Device w).Error = MCP9808_ERR_INVALID_RESPONSE ∧
      (MCP9808_Init p_Device w).Device.Internal.isInitialized = false) ∧
    (∀ (d1 : List Nat) (e1 : σ) (d2 : List Nat) (e2 : σ) (s3 : Int) (d3 : List Nat) (e3 : σ),
      rd MCP9808_REG_MANUFACTURER_ID 2 p_Device.I2C.Address w.ext = (0, d1, e1) →
      ((byteAt d1 0 <<< 0x08) ||| byteAt d1 1) = MCP9808_MANUFACTURER_ID →
      rd MCP9808_REG_DEVICE_ID 2 p_Device.I2C.Address e1 = (0, d2, e2) →
      rd MCP9808_REG_CONFIG 2 p_Device.I2C.Address e2 = (s3, d3, e3) →
      s3 ≠ 0 →
      (MCP9808_Init p_Device w).Error = MCP9808_ERR_INVALID_RESPONSE ∧
      (MCP9808_Init p_Device w).Device.Internal.isInitialized = false) := by
  have hU := Init_unfold p_Device w rd wr hrd hwr haddr huninit
  have hmod : ∀ d1 : List Nat, ((byteAt d1 0 <<< 0x08) ||| byteAt d1 1) % 65536
      = ((byteAt d1 0 <<< 0x08) ||| byteAt d1 1) := fun d1 =>
    Nat.mod_eq_of_lt (be16_lt _ _ (byteAt_lt d1 0) (byteAt_lt d1 1))
  refine ⟨?_, ?_, ?_, ?_⟩
  · intro d1 e1 h1 hid
    have hI : MCP9808_Init p_Device w
        = ⟨MCP9808_ERR_NO_DEVICE, p_Device,
           { ext := e1, log := w.log ++ [Event.read MCP9808_REG_MANUFACTURER_ID 2 0 d1] },
           ()⟩ := by
      rw [hU]
      simp [busRead, h1, hmod, hid]
    rw [hI]
    refine ⟨rfl, rfl, huninit, ?_⟩
    exact Init_log_head p_Device _ rd wr hrd hwr haddr huninit
  · intro s1 d1 e1 h1 hs
    rw [hU]
    simp [busRead, h1, hs, huninit]
  · intro d1 e1 s2 d2 e2 h1 hid h2 hs
    have hid2 : ((byteAt d1 0 <<< 0x08) ||| byteAt d1 1) % 65536 = MCP9808_MANUFACTURER_ID := by
      rw [hid]; decide
    rw [hU]
    simp [busRead, h1, hid2, h2, hs, huninit]
  · intro d1 e1 d2 e2 s3 d3 e3 h1 hid h2 h3 hs
    have hid2 : ((byteAt d1 0 <<< 0x08) ||| byteAt d1 1) % 65536 = MCP9808_MANUFACTURER_ID := by
      rw [hid]; decide
    rw [hU]
    simp [busRead, h1, hid2, h2, h3, hs, huninit]

/-- C10, witness: (a) the simulated sensor with manufacturer ID `0x0055`;
(b), (c), (d) the simulated sensor failing the read of register `0x06`,
`0x07`, `0x01` respectively. -/
theorem C10_Init_failures_witness :
    ((MCP9808_Init (simHandle false false) (simWorld wrongRegs)).Error
        = MCP9808_ERR_NO_DEVICE ∧
      (MCP9808_Init (simHandle false false) (simWorld wrongRegs)).world.log
        = (simWorld wrongRegs).log ++ [Event.read MCP9808_REG_MANUFACTURER_ID 2 0 [0x00, 0x55]] ∧
      (MCP9808_Init (simHandle false false) (simWorld wrongRegs)).Device.Internal.isInitialized
        = false ∧
      ∃ rest,
        (MCP9808_Init (MCP9808_Init (simHandle false false) (simWorld wrongRegs)).Device
            (MCP9808_Init (simHandle false false) (simWorld wrongRegs)).world).world.log
          = (MCP9808_Init (simHandle false false) (simWorld wrongRegs)).world.log
            ++ Event.read MCP9808_REG_MANUFACTURER_ID 2
                (simRead MCP9808_REG_MANUFACTURER_ID 2 (simHandle false false).I2C.Address
                  wrongRegs).1
                (simRead MCP9808_REG_MANUFACTURER_ID 2 (simHandle false false).I2C.Address
                  wrongRegs).2.1 :: rest) ∧
    ((MCP9808_Init (flakyHandle 6 false false) (simWorld goodRegs)).Error
        = MCP9808_ERR_INVALID_RESPONSE ∧
      (MCP9808_Init (flakyHandle 6 false false) (simWorld goodRegs)).Device.Internal.isInitialized
        = false) ∧
    ((MCP9808_Init (flakyHandle 7 false false) (simWorld goodRegs)).Error
        = MCP9808_ERR_INVALID_RESPONSE ∧
      (MCP9808_Init (flakyHandle 7 false false) (simWorld goodRegs)).Device.Internal.isInitialized
        = false) ∧
    ((MCP9808_Init (flakyHandle 1 false false) (simWorld goodRegs)).Error
        = MCP9808_ERR_INVALID_RESPONSE ∧
      (MCP9808_Init (flakyHandle 1 false false) (simWorld goodRegs)).Device.Internal.isInitialized
        = false) :=
  ⟨(C10_Init_failures (simHandle false false) (simWorld wrongRegs) simRead simWrite
      rfl rfl (by decide) rfl).1 [0x00, 0x55] wrongRegs rfl (by decide),
   (C10_Init_failures (flakyHandle 6 false false) (simWorld goodRegs) (flakyRead 6) simWrite
      rfl rfl (by decide) rfl).2.1 (-1) [] goodRegs rfl (by decide),
   (C10_Init_failures (flakyHandle 7 false false) (simWorld goodRegs) (flakyRead 7) simWrite
      rfl rfl (by decide) rfl).2.2.1 [0x00, 0x54] goodRegs (-1) [] goodRegs
      rfl (by decide) rfl (by decide),
   (C10_Init_failures (flakyHandle 1 false false) (simWorld goodRegs) (flakyRead 1) simWrite
      rfl rfl (by decide) rfl).2.2.2 [0x00, 0x54] goodRegs [0x04, 0x01] goodRegs (-1) []
      goodRegs rfl (by decide) rfl rfl (by decide)⟩

/-! ## Masked partial write -/

theorem testBit_notInt (x i : Nat) (hx : x < 2 ^ 32) :
    (notInt x).testBit i = (decide (i < 32) && !x.testBit i) := by
  unfold notInt
  have h : 2 ^ 32 - 1 - x = 2 ^ 32 - (x + 1) := by omega
  rw [h]
  exact Nat.testBit_two_pow_sub_succ hx i

theorem testBit_not16 (x i : Nat) (hx : x < 2 ^ 16) :
    (0xFFFF - x).testBit i = (decide (i < 16) && !x.testBit i) := by
  have h : 0xFFFF - x = 2 ^ 16 - (x + 1) := by omega
  rw [h]
  exact Nat.testBit_two_pow_sub_succ hx i

theorem testBit_high_of_lt (b n i : Nat) (hb : b < 2 ^ n) (hi : n ≤ i) :
    b.testBit i = false := by
  apply Nat.testBit_lt_two_pow
  calc b < 2 ^ n := hb
    _ ≤ 2 ^ i := Nat.pow_le_pow_right (by norm_num) hi

/-- The byte `Temp[0]` that `MCP9808_ModifyBits` writes is the high byte of
`(R AND NOT Mask) OR Value`. -/
theorem ModifyBits_high_byte (R0 R1 M V : Nat) (h1 : R1 < 256) (hM : M < 65536)
    (hV : V < 65536) :
    ((R0 &&& notInt (M >>> 0x08)) % 256 ||| (V >>> 0x08)) % 256
      = ((((R0 <<< 0x08) ||| R1) &&& (0xFFFF - M)) ||| V) >>> 0x08 := by
  have hM8 : M >>> 8 < 2 ^ 32 := by
    rw [Nat.shiftRight_eq_div_pow]; omega
  apply Nat.eq_of_testBit_eq
  intro i
  have e256 : (256 : Nat) = 2 ^ 8 := by norm_num
  rw [e256]
  simp only [Nat.testBit_mod_two_pow, Nat.testBit_or, Nat.testBit_and, Nat.testBit_shiftRight,
    Nat.testBit_shiftLeft, testBit_notInt _ _ hM8, testBit_not16 _ _ hM]
  by_cases hi : i < 8
  · have hR1 : R1.testBit (8 + i) = false := testBit_high_of_lt R1 8 (8 + i) h1 (by omega)
    have hlt : 8 + i < 16 := by omega
    have hlt32 : i < 32 := by omega
    simp [hi, hR1, hlt, hlt32]
  · have hVi : V.testBit (8 + i) = false := testBit_high_of_lt V 16 (8 + i) hV (by omega)
    have hge : ¬ (8 + i < 16) := by omega
    simp [hi, hVi, hge]

/-- The byte `Temp[1]` that `MCP9808_ModifyBits` writes is the low byte of
`(R AND NOT Mask) OR Value`. -/
theorem ModifyBits_low_byte (R0 R1 M V : Nat) (hM : M < 65536) :
    ((R1 &&& notInt (M &&& 0xFF)) % 256 ||| (V &&& 0xFF)) % 256
      = ((((R0 <<< 0x08) ||| R1) &&& (0xFFFF - M)) ||| V) &&& 0xFF := by
  have e256 : (256 : Nat) = 2 ^ 8 := by norm_num
  have e255 : (0xFF : Nat) = 2 ^ 8 - 1 := by norm_num
  have hM8 : M &&& (2 ^ 8 - 1) < 2 ^ 32 := by
    have h : M &&& (2 ^ 8 - 1) ≤ 2 ^ 8 - 1 := Nat.and_le_right
    omega
  apply Nat.eq_of_testBit_eq
  intro i
  rw [e256, e255]
  simp only [Nat.testBit_mod_two_pow, Nat.testBit_or, Nat.testBit_and, Nat.testBit_shiftRight,
    Nat.testBit_shiftLeft, testBit_notInt _ _ hM8, testBit_not16 _ _ hM,
    Nat.testBit_two_pow_sub_one]
  by_cases hi : i < 8
  · have hlt : i < 16 := by omega
    have hlt32 : i < 32 := by omega
    have hge : ¬ (8 ≤ i) := by omega
    simp [hi, hlt, hlt32, hge]
  · simp [hi]

/-- `MCP9808_ModifyBits` after a successful configuration read: one read, one
write of the two bytes of `(R AND NOT Mask) OR Value`, and the status follows
the write. -/
theorem ModifyBits_unfold {σ : Type} (p_Device : MCP9808_t σ) (w : World σ)
    (rd : MCP9808_Read_t σ) (wr : MCP9808_Write_t σ) (Register Mask Value : Nat)
    (data : List Nat) (e1 : σ)
    (hrd : p_Device.I2C.Read = some rd) (hwr : p_Device.I2C.Write = some wr)
    (hMask : Mask < 65536) (hValue : Value < 65536)
    (hread : rd MCP9808_REG_CONFIG 2 p_Device.I2C.Address w.ext = (0, data, e1))
    (X : Nat)
    (hX : X = ((configWord data &&& (0xFFFF - Mask)) ||| Value)) :
    MCP9808_ModifyBits p_Device Register Mask Value w
      = some ⟨if (wr MCP9808_REG_CONFIG [X >>> 0x08, X &&& 0xFF] 2 p_Device.I2C.Address e1).1 ≠ 0
              then MCP9808_ERR_INVALID_RESPONSE else MCP9808_ERR_OK,
            p_Device,
            { ext := (wr MCP9808_REG_CONFIG [X >>> 0x08, X &&& 0xFF] 2 p_Device.I2C.Address e1).2
              log := w.log ++ [Event.read MCP9808_REG_CONFIG 2 0 data,
                Event.write MCP9808_REG_CONFIG [X >>> 0x08, X &&& 0xFF]
                  (wr MCP9808_REG_CONFIG [X >>> 0x08, X &&& 0xFF] 2 p_Device.I2C.Address e1).1] },
            ()⟩ := by
  have hhi := ModifyBits_high_byte (byteAt data 0) (byteAt data 1) Mask Value
    (byteAt_lt data 1) hMask hValue
  have hlo := ModifyBits_low_byte (byteAt data 0) (byteAt data 1) Mask Value hMask
  have hX2 : X = ((((byteAt data 0 <<< 0x08) ||| byteAt data 1) &&& (0xFFFF - Mask))
      ||| Value) := hX
  simp only [MCP9808_ModifyBits, hrd, hwr, busRead, busWrite, hread,
    Nat.mod_eq_of_lt hMask, Nat.mod_eq_of_lt hValue, hhi, hlo, ← hX2]
  split_ifs <;> simp_all

theorem configWord_lt (data : List Nat) : configWord data < 65536 :=
  be16_lt _ _ (byteAt_lt data 0) (byteAt_lt data 1)

/-- With `Value` inside `Mask`, the bits of `(R AND NOT Mask) OR Value`
outside `Mask` are those of `R`. -/
theorem masked_outside (R M V i : Nat) (hR : R < 65536) (hM : M < 65536)
    (hVM : V &&& M = V) (hi : M.testBit i = false) :
    (((R &&& (0xFFFF - M)) ||| V)).testBit i = R.testBit i := by
  have hV : V.testBit i = false := by
    have h := congrArg (fun n => n.testBit i) hVM
    simp only [Nat.testBit_and, hi, Bool.and_false] at h
    exact h.symm
  simp only [Nat.testBit_or, Nat.testBit_and, testBit_not16 _ _ hM, hi, hV]
  by_cases h16 : i < 16
  · simp [h16]
  · have hRi : R.testBit i = false := testBit_high_of_lt R 16 i hR (by omega)
    simp [hRi]

/-- C6 (as amended): after a successful read of the configuration register
returning the 2-byte value `R`, `MCP9808_ModifyBits` presents to the transport
write, for every 16-bit `Mask` and `Value`, exactly the big-endian bytes of
`(R AND NOT Mask) OR Value`; whenever `Value` has no bit outside `Mask` this
is `(R AND NOT Mask) OR (Value AND Mask)` and every bit of `R` outside `Mask`
is written back unchanged. -/
theorem C6_ModifyBits_written_bytes {σ : Type} (p_Device : MCP9808_t σ) (w : World σ)
    (rd : MCP9808_Read_t σ) (wr : MCP9808_Write_t σ) (Register Mask Value : Nat)
    (data : List Nat) (e1 : σ)
    (hrd : p_Device.I2C.Read = some rd) (hwr : p_Device.I2C.Write = some wr)
    (hMask : Mask < 65536) (hValue : Value < 65536)
    (hread : rd MCP9808_REG_CONFIG 2 p_Device.I2C.Address w.ext = (0, data, e1)) :
    ∃ r st, MCP9808_ModifyBits p_Device Register Mask Value w = some r ∧
      r.world.log = w.log ++ [Event.read MCP9808_REG_CONFIG 2 0 data,
        Event.write MCP9808_REG_CONFIG
          [((configWord data &&& (0xFFFF - Mask)) ||| Value) >>> 0x08,
           ((configWord data &&& (0xFFFF - Mask)) ||| Value) &&& 0xFF] st] ∧
      (Value &&& Mask = Value →
        ((configWord data &&& (0xFFFF - Mask)) ||| Value)
          = ((configWord data &&& (0xFFFF - Mask)) ||| (Value &&& Mask)) ∧
        ∀ i, Mask.testBit i = false →
          ((configWord data &&& (0xFFFF - Mask)) ||| Value).testBit i
            = (configWord data).testBit i) := by
  have hU := ModifyBits_unfold p_Device w rd wr Register Mask Value data e1 hrd hwr
    hMask hValue hread _ rfl
  refine ⟨_, _, hU, rfl, ?_⟩
  intro hVM
  refine ⟨by rw [hVM], ?_⟩
  intro i hi
  exact masked_outside (configWord data) Mask Value i (configWord_lt data) hMask hVM hi

/-- C6, witness: hysteresis mask `0x0600`, value `0x0400`, configuration
`{0x01, 0x1F}` on the simulated sensor. -/
theorem C6_ModifyBits_written_bytes_witness :
    ∃ r st, MCP9808_ModifyBits (simHandle true false) MCP9808_REG_CONFIG 0x0600 0x0400
        (simWorld [(1, [0x01, 0x1F])]) = some r ∧
      r.world.log = (simWorld [(1, [0x01, 0x1F])]).log ++
        [Event.read MCP9808_REG_CONFIG 2 0 [0x01, 0x1F],
         Event.write MCP9808_REG_CONFIG
          [((configWord [0x01, 0x1F] &&& (0xFFFF - 0x0600)) ||| 0x0400) >>> 0x08,
           ((configWord [0x01, 0x1F] &&& (0xFFFF - 0x0600)) ||| 0x0400) &&& 0xFF] st] ∧
      (0x0400 &&& 0x0600 = 0x0400 →
        ((configWord [0x01, 0x1F] &&& (0xFFFF - 0x0600)) ||| 0x0400)
          = ((configWord [0x01, 0x1F] &&& (0xFFFF - 0x0600)) ||| (0x0400 &&& 0x0600)) ∧
        ∀ i, (0x0600 : Nat).testBit i = false →
          ((configWord [0x01, 0x1F] &&& (0xFFFF - 0x0600)) ||| 0x0400).testBit i
            = (configWord [0x01, 0x1F]).testBit i) :=
  C6_ModifyBits_written_bytes (simHandle true false) (simWorld [(1, [0x01, 0x1F])])
    simRead simWrite MCP9808_REG_CONFIG 0x0600 0x0400 [0x01, 0x1F] [(1, [0x01, 0x1F])]
    rfl rfl (by decide) (by decide) rfl

/-- C6 as stated fails: with `Mask = 0x0600`, `Value = 0x0100` and a
configuration register reading `{0x00, 0x00}`, the bytes presented to the
write are `{0x01, 0x00}`, while `(R AND NOT Mask) OR (Value AND Mask)` is 0
and bit 8 of `R`, outside `Mask`, is not written back unchanged. -/
theorem C6_counterexample :
    (MCP9808_ModifyBits (simHandle true false) MCP9808_REG_CONFIG 0x0600 0x0100
        (simWorld [(1, [0x00, 0x00])])).map (fun r => r.world.log)
      = some [Event.read MCP9808_REG_CONFIG 2 0 [0x00, 0x00],
              Event.write MCP9808_REG_CONFIG [0x01, 0x00] 0] ∧
    [((configWord [0x00, 0x00] &&& (0xFFFF - 0x0600)) ||| (0x0100 &&& 0x0600)) >>> 0x08,
     ((configWord [0x00, 0x00] &&& (0xFFFF - 0x0600)) ||| (0x0100 &&& 0x0600)) &&& 0xFF]
      = [0x00, 0x00] ∧
    (0x0600 : Nat).testBit 8 = false ∧
    (configWord [0x01, 0x00]).testBit 8 ≠ (configWord [0x00, 0x00]).testBit 8 := by
  decide

/-- With `Value` inside `Mask`: outside the mask the written word is `R`. -/
theorem masked_and_not (R M V : Nat) (hR : R < 65536) (hM : M < 65536) (hVM : V &&& M = V) :
    ((R &&& (0xFFFF - M)) ||| V) &&& (0xFFFF - M) = R &&& (0xFFFF - M) := by
  apply Nat.eq_of_testBit_eq
  intro i
  rw [Nat.testBit_and, Nat.testBit_and (R)]
  cases hMi : M.testBit i with
  | false => rw [masked_outside R M V i hR hM hVM hMi]
  | true => simp [testBit_not16 _ _ hM, hMi]

/-- With `Value` inside `Mask`: inside the mask the written word is `Value`. -/
theorem masked_and_mask (R M V : Nat) (hM : M < 65536) (hVM : V &&& M = V) :
    ((R &&& (0xFFFF - M)) ||| V) &&& M = V := by
  apply Nat.eq_of_testBit_eq
  intro i
  have h := congrArg (fun n => n.testBit i) hVM
  simp only [Nat.testBit_and] at h
  simp only [Nat.testBit_or, Nat.testBit_and, testBit_not16 _ _ hM]
  cases hMi : M.testBit i <;> cases hVi : V.testBit i <;> simp_all

/-- The two bytes written recombine to the 16-bit word they were cut from. -/
theorem configWord_split (X : Nat) (hX : X < 65536) :
    configWord [X >>> 0x08, X &&& 0xFF] = X := by
  have e255 : (0xFF : Nat) = 2 ^ 8 - 1 := by norm_num
  have e256 : (256 : Nat) = 2 ^ 8 := by norm_num
  have hb0 : byteAt [X >>> 0x08, X &&& 0xFF] 0 = X >>> 8 := by
    simp only [byteAt, List.getD_cons_zero]
    apply Nat.mod_eq_of_lt
    rw [Nat.shiftRight_eq_div_pow]
    omega
  have hb1 : byteAt [X >>> 0x08, X &&& 0xFF] 1 = X &&& 0xFF := by
    simp only [byteAt, List.getD_cons_succ, List.getD_cons_zero]
    apply Nat.mod_eq_of_lt
    have h : X &&& 0xFF ≤ 0xFF := Nat.and_le_right
    omega
  unfold configWord
  rw [hb0, hb1]
  apply Nat.eq_of_testBit_eq
  intro i
  rw [e255]
  simp only [Nat.testBit_or, Nat.testBit_shiftLeft, Nat.testBit_shiftRight, Nat.testBit_and,
    Nat.testBit_two_pow_sub_one]
  by_cases hi : i < 8
  · have hge : ¬ (8 ≤ i) := by omega
    simp [hi, hge]
  · have hge : 8 ≤ i := by omega
    have hsum : 8 + (i - 8) = i := by omega
    simp [hi, hge, hsum]

theorem masked_word_lt (R M V : Nat) (hV : V < 65536) :
    ((R &&& (0xFFFF - M)) ||| V) < 65536 := by
  have e : (65536 : Nat) = 2 ^ 16 := by norm_num
  rw [e]
  apply Nat.or_lt_two_pow
  · have h : R &&& (0xFFFF - M) ≤ 0xFFFF - M := Nat.and_le_right
    omega
  · omega

/-- Bit 0 of the high byte is bit 8 of the configuration word. -/
theorem shutdownBit_of_word (X : Nat) : (X >>> 0x08) &&& 0x01 = (X.testBit 8).toNat := by
  have h := Nat.and_two_pow (X >>> 8) 0
  simp only [Nat.pow_zero, Nat.mul_one, Nat.testBit_shiftRight] at h
  exact h

theorem configWord_testBit_8 (data : List Nat) :
    (configWord data).testBit 8 = (byteAt data 0).testBit 0 := by
  unfold configWord
  have h1 : (byteAt data 1).testBit 8 = false :=
    testBit_high_of_lt _ 8 8 (byteAt_lt data 1) (Nat.le_refl 8)
  simp [Nat.testBit_or, Nat.testBit_shiftLeft, h1]

theorem byte_and_one (b : Nat) : b &&& 0x01 = (b.testBit 0).toNat := by
  have h := Nat.and_two_pow b 0
  simpa using h

/-- C7: after a successful configuration read, for each hysteresis level the
2 bytes `MCP9808_SetHysteresis` presents to the transport write agree with
the 2 bytes read on every bit outside `0x0600`, hold the requested level in
the bits inside `0x0600`, and keep the shutdown bit (bit 0 of byte 0); for
each `Enable` differing from the cached flag of an initialized handle, the 2
bytes `MCP9808_SwitchShutdown` presents agree with the 2 bytes read on every
bit outside `0x0100` and hold `Enable` in bit `0x0100`. -/
theorem C7_masked_setters_preserve {σ : Type} (p_Device : MCP9808_t σ) (w : World σ)
    (rd : MCP9808_Read_t σ) (wr : MCP9808_Write_t σ) (data : List Nat) (e1 : σ)
    (hrd : p_Device.I2C.Read = some rd) (hwr : p_Device.I2C.Write = some wr)
    (hread : rd MCP9808_REG_CONFIG 2 p_Device.I2C.Address w.ext = (0, data, e1)) :
    (∀ h : MCP9808_Hysteresis_t, ∃ r W0 W1 st,
      MCP9808_SetHysteresis p_Device h w = some r ∧
      r.world.log = w.log ++ [Event.read MCP9808_REG_CONFIG 2 0 data,
        Event.write MCP9808_REG_CONFIG [W0, W1] st] ∧
      configWord [W0, W1] &&& (0xFFFF - 0x0600) = configWord data &&& (0xFFFF - 0x0600) ∧
      configWord [W0, W1] &&& 0x0600 = h.toNat <<< 0x09 ∧
      W0 &&& 0x01 = byteAt data 0 &&& 0x01) ∧
    (∀ Enable : Bool, p_Device.Internal.isInitialized = true →
      p_Device.Internal.isShutdown ≠ Enable → ∃ r W0 W1 st,
      MCP9808_SwitchShutdown p_Device Enable w = some r ∧
      r.world.log = w.log ++ [Event.read MCP9808_REG_CONFIG 2 0 data,
        Event.write MCP9808_REG_CONFIG [W0, W1] st] ∧
      configWord [W0, W1] &&& (0xFFFF - 0x0100) = configWord data &&& (0xFFFF - 0x0100) ∧
      configWord [W0, W1] &&& 0x0100 = Enable.toNat <<< 0x08) := by
  constructor
  · intro h
    have hV : h.toNat <<< 0x09 < 65536 := by cases h <;> decide
    have hVM : (h.toNat <<< 0x09) &&& (0x03 <<< 0x09) = h.toNat <<< 0x09 := by
      cases h <;> decide
    have hM : (0x03 <<< 0x09) < 65536 := by decide
    have hM6 : (0x03 <<< 0x09) = 0x0600 := by decide
    have hU := ModifyBits_unfold p_Device w rd wr MCP9808_REG_CONFIG (0x03 <<< 0x09)
      (h.toNat <<< 0x09) data e1 hrd hwr hM hV hread _ rfl
    have hXlt := masked_word_lt (configWord data) (0x03 <<< 0x09) (h.toNat <<< 0x09) hV
    refine ⟨_, _, _, _, hU, rfl, ?_, ?_, ?_⟩
    · rw [configWord_split _ hXlt, ← hM6]
      exact masked_and_not _ _ _ (configWord_lt data) hM hVM
    · rw [configWord_split _ hXlt, ← hM6]
      exact masked_and_mask _ _ _ hM hVM
    · rw [shutdownBit_of_word, byte_and_one, ← configWord_testBit_8]
      congr 1
      exact masked_outside _ _ _ 8 (configWord_lt data) hM hVM (by decide)
  · intro Enable hinit hne
    have hV : Enable.toNat <<< 0x08 < 65536 := by cases Enable <;> decide
    have hVM : (Enable.toNat <<< 0x08) &&& (0x01 <<< 0x08) = Enable.toNat <<< 0x08 := by
      cases Enable <;> decide
    have hM : (0x01 <<< 0x08) < 65536 := by decide
    have hM1 : (0x01 <<< 0x08) = 0x0100 := by decide
    have hU := ModifyBits_unfold p_Device w rd wr MCP9808_REG_CONFIG (0x01 <<< 0x08)
      (Enable.toNat <<< 0x08) data e1 hrd hwr hM hV hread _ rfl
    have hXlt := masked_word_lt (configWord data) (0x01 <<< 0x08) (Enable.toNat <<< 0x08) hV
    have hS : ∃ r, MCP9808_SwitchShutdown p_Device Enable w = some r ∧
        r.world.log = w.log ++ [Event.read MCP9808_REG_CONFIG 2 0 data,
          Event.write MCP9808_REG_CONFIG
            [((configWord data &&& (0xFFFF - (0x01 <<< 0x08))) ||| (Enable.toNat <<< 0x08)) >>> 0x08,
             ((configWord data &&& (0xFFFF - (0x01 <<< 0x08))) ||| (Enable.toNat <<< 0x08)) &&& 0xFF]
            (wr MCP9808_REG_CONFIG
              [((configWord data &&& (0xFFFF - (0x01 <<< 0x08))) ||| (Enable.toNat <<< 0x08)) >>> 0x08,
               ((configWord data &&& (0xFFFF - (0x01 <<< 0x08))) ||| (Enable.toNat <<< 0x08)) &&& 0xFF]
              2 p_Device.I2C.Address e1).1] := by
      simp only [MCP9808_SwitchShutdown, hinit, hne, hU]
      simp only [Bool.true_eq_false, if_false]
      split_ifs <;> exact ⟨_, rfl, rfl⟩
    obtain ⟨r, hr, hlog⟩ := hS
    refine ⟨r, _, _, _, hr, hlog, ?_, ?_⟩
    · rw [configWord_split _ hXlt, ← hM1]
      exact masked_and_not _ _ _ (configWord_lt data) hM hVM
    · rw [configWord_split _ hXlt, ← hM1]
      exact masked_and_mask _ _ _ hM hVM

/-- C7, witness: hysteresis level 3 and `Enable = true` on an initialized,
active handle of the simulated sensor with configuration `{0x00, 0x1F}`. -/
theorem C7_masked_setters_preserve_witness :
    (∃ r W0 W1 st,
      MCP9808_SetHysteresis (simHandle true false)
        MCP9808_Hysteresis_t.MCP9808_HYSTERESIS_6 (simWorld goodRegs) = some r ∧
      r.world.log = (simWorld goodRegs).log ++ [Event.read MCP9808_REG_CONFIG 2 0 [0x00, 0x1F],
        Event.write MCP9808_REG_CONFIG [W0, W1] st] ∧
      configWord [W0, W1] &&& (0xFFFF - 0x0600)
        = configWord [0x00, 0x1F] &&& (0xFFFF - 0x0600) ∧
      configWord [W0, W1] &&& 0x0600
        = MCP9808_Hysteresis_t.MCP9808_HYSTERESIS_6.toNat <<< 0x09 ∧
      W0 &&& 0x01 = byteAt [0x00, 0x1F] 0 &&& 0x01) ∧
    (∃ r W0 W1 st,
      MCP9808_SwitchShutdown (simHandle true false) true (simWorld goodRegs) = some r ∧
      r.world.log = (simWorld goodRegs).log ++ [Event.read MCP9808_REG_CONFIG 2 0 [0x00, 0x1F],
        Event.write MCP9808_REG_CONFIG [W0, W1] st] ∧
      configWord [W0, W1] &&& (0xFFFF - 0x0100)
        = configWord [0x00, 0x1F] &&& (0xFFFF - 0x0100) ∧
      configWord [W0, W1] &&& 0x0100 = true.toNat <<< 0x08) :=
  ⟨(C7_masked_setters_preserve (simHandle true false) (simWorld goodRegs) simRead simWrite
      [0x00, 0x1F] goodRegs rfl rfl rfl).1 MCP9808_Hysteresis_t.MCP9808_HYSTERESIS_6,
   (C7_masked_setters_preserve (simHandle true false) (simWorld goodRegs) simRead simWrite
      [0x00, 0x1F] goodRegs rfl rfl rfl).2 true rfl (by decide)⟩

/-! ## Lock check of the initialization -/

set_option maxRecDepth 20000 in
theorem lockBits_iff (b : Nat) (hb : b < 256) :
    b &&& 0xC0 = 0xC0 ↔ (b &&& 0x80 ≠ 0 ∧ b &&& 0x40 ≠ 0) := by
  have h : ∀ n, n < 256 → (n &&& 0xC0 = 0xC0 ↔ (n &&& 0x80 ≠ 0 ∧ n &&& 0x40 ≠ 0)) := by
    decide
  exact h b hb

/-- C11: on an uninitialized handle with valid callbacks and address, when
the three reads succeed and the manufacturer ID matches, `MCP9808_Init`
returns Locked exactly when bit 7 (critical lock) and bit 6 (window lock) of
byte 1 of the configuration read are both set, and then initialized stays
false; otherwise it returns OK with initialized = true and shutdown = false,
whatever the configuration bytes (the shutdown bit included) are. -/
theorem C11_Init_locked_or_ok {σ : Type} (p_Device : MCP9808_t σ) (w : World σ)
    (rd : MCP9808_Read_t σ) (wr : MCP9808_Write_t σ)
    (d1 d2 d3 : List Nat) (e1 e2 e3 : σ)
    (hrd : p_Device.I2C.Read = some rd) (hwr : p_Device.I2C.Write = some wr)
    (haddr : 0x18 ≤ p_Device.I2C.Address)
    (huninit : p_Device.Internal.isInitialized = false)
    (h1 : rd MCP9808_REG_MANUFACTURER_ID 2 p_Device.I2C.Address w.ext = (0, d1, e1))
    (hid : ((byteAt d1 0 <<< 0x08) ||| byteAt d1 1) = MCP9808_MANUFACTURER_ID)
    (h2 : rd MCP9808_REG_DEVICE_ID 2 p_Device.I2C.Address e1 = (0, d2, e2))
    (h3 : rd MCP9808_REG_CONFIG 2 p_Device.I2C.Address e2 = (0, d3, e3)) :
    ((MCP9808_Init p_Device w).Error = MCP9808_ERR_LOCKED ↔
      (byteAt d3 1 &&& 0x80 ≠ 0 ∧ byteAt d3 1 &&& 0x40 ≠ 0)) ∧
    ((byteAt d3 1 &&& 0x80 ≠ 0 ∧ byteAt d3 1 &&& 0x40 ≠ 0) →
      (MCP9808_Init p_Device w).Device.Internal.isInitialized = false) ∧
    (¬ (byteAt d3 1 &&& 0x80 ≠ 0 ∧ byteAt d3 1 &&& 0x40 ≠ 0) →
      (MCP9808_Init p_Device w).Error = MCP9808_ERR_OK ∧
      (MCP9808_Init p_Device w).Device.Internal.isInitialized = true ∧
      (MCP9808_Init p_Device w).Device.Internal.isShutdown = false) := by
  have hid2 : ((byteAt d1 0 <<< 0x08) ||| byteAt d1 1) % 65536 = MCP9808_MANUFACTURER_ID := by
    rw [hid]; decide
  have hne : MCP9808_ERR_OK ≠ MCP9808_ERR_LOCKED := by decide
  have hL := lockBits_iff (byteAt d3 1) (byteAt_lt d3 1)
  rw [Init_unfold p_Device w rd wr hrd hwr haddr huninit]
  by_cases hlock : byteAt d3 1 &&& 0xC0 = 0xC0
  · have hb := hL.1 hlock
    simp [busRead, h1, h2, h3, hid2, hlock, hb, huninit]
  · have hb : ¬ (byteAt d3 1 &&& 0x80 ≠ 0 ∧ byteAt d3 1 &&& 0x40 ≠ 0) := fun h => hlock (hL.2 h)
    simp only [busRead, h1, h2, h3, hid2, hlock, hb, ne_eq, not_true_eq_false, if_false,
      not_false_eq_true, true_implies, false_implies, true_and, and_true, iff_false]
    exact hne

/-- C11, witness: the simulated sensor with configuration `{0x01, 0xC0}`
(locked) is covered by the first two parts, the one with configuration
`{0x00, 0x1F}` by the third. -/
theorem C11_Init_locked_or_ok_witness :
    ((MCP9808_Init (simHandle false false) (simWorld lockedRegs)).Error = MCP9808_ERR_LOCKED ∧
      (MCP9808_Init (simHandle false false) (simWorld lockedRegs)).Device.Internal.isInitialized
        = false) ∧
    ((MCP9808_Init (simHandle false true) (simWorld goodRegs)).Error = MCP9808_ERR_OK ∧
      (MCP9808_Init (simHandle false true) (simWorld goodRegs)).Device.Internal.isInitialized
        = true ∧
      (MCP9808_Init (simHandle false true) (simWorld goodRegs)).Device.Internal.isShutdown
        = false) :=
  ⟨⟨(C11_Init_locked_or_ok (simHandle false false) (simWorld lockedRegs) simRead simWrite
        [0x00, 0x54] [0x04, 0x01] [0x01, 0xC0] lockedRegs lockedRegs lockedRegs
        rfl rfl (by decide) rfl rfl (by decide) rfl rfl).1.2 (by decide),
     (C11_Init_locked_or_ok (simHandle false false) (simWorld lockedRegs) simRead simWrite
        [0x00, 0x54] [0x04, 0x01] [0x01, 0xC0] lockedRegs lockedRegs lockedRegs
        rfl rfl (by decide) rfl rfl (by decide) rfl rfl).2.1 (by decide)⟩,
   (C11_Init_locked_or_ok (simHandle false true) (simWorld goodRegs) simRead simWrite
      [0x00, 0x54] [0x04, 0x01] [0x00, 0x1F] goodRegs goodRegs goodRegs
      rfl rfl (by decide) rfl rfl (by decide) rfl rfl).2.2 (by decide)⟩

/-! ## Shutdown gate of the temperature read -/

/-- C12: on an initialized handle whose shutdown flag is true,
`MCP9808_GetTemperature` with a non-null output returns NotActive and leaves
the handle, the environment (no transport read, no alarm callback) and the
output destination exactly as they were. -/
theorem C12_GetTemperature_not_active {σ : Type} (p_Device : MCP9808_t σ) (w : World σ)
    (old : Int)
    (hinit : p_Device.Internal.isInitialized = true)
    (hsd : p_Device.Internal.isShutdown = true) :
    MCP9808_GetTemperature p_Device (some old) w
      = some ⟨MCP9808_ERR_NOT_ACTIVE, p_Device, w, some old⟩ := by
  simp [MCP9808_GetTemperature, hinit, hsd]

/-- C12, witness: an initialized handle in shutdown on the simulated sensor. -/
theorem C12_GetTemperature_not_active_witness :
    MCP9808_GetTemperature (simHandle true true) (some 21) (simWorld [(5, [0x01, 0x90])])
      = some ⟨MCP9808_ERR_NOT_ACTIVE, simHandle true true, simWorld [(5, [0x01, 0x90])],
          some 21⟩ :=
  C12_GetTemperature_not_active (simHandle true true) (simWorld [(5, [0x01, 0x90])]) 21 rfl rfl

/-! ## Shutdown control -/

/-- `MCP9808_ModifyBits` when the configuration read fails: InvalidResponse
after that one read, without a write. -/
theorem ModifyBits_read_failed {σ : Type} (p_Device : MCP9808_t σ) (w : World σ)
    (rd : MCP9808_Read_t σ) (Register Mask Value : Nat) (s1 : Int) (data : List Nat) (e1 : σ)
    (hrd : p_Device.I2C.Read = some rd)
    (hread : rd MCP9808_REG_CONFIG 2 p_Device.I2C.Address w.ext = (s1, data, e1))
    (hs : s1 ≠ 0) :
    MCP9808_ModifyBits p_Device Register Mask Value w
      = some ⟨MCP9808_ERR_INVALID_RESPONSE, p_Device,
          { ext := e1, log := w.log ++ [Event.read MCP9808_REG_CONFIG 2 s1 data] }, ()⟩ := by
  simp [MCP9808_ModifyBits, hrd, busRead, hread, hs]

/-- The configuration word `MCP9808_SwitchShutdown` writes back. -/
theorem shutdown_mask_facts (Enable : Bool) :
    (0x01 <<< 0x08) < 65536 ∧ Enable.toNat <<< 0x08 < 65536 := by
  cases Enable <;> decide

/-- `MCP9808_SwitchShutdown` on an initialized handle whose cached flag
differs from `Enable`, after a successful configuration read: one read, one
write, and the cached flag follows the status of the write. -/
theorem SwitchShutdown_unfold {σ : Type} (p_Device : MCP9808_t σ) (w : World σ)
    (rd : MCP9808_Read_t σ) (wr : MCP9808_Write_t σ) (Enable : Bool)
    (data : List Nat) (e1 : σ)
    (hrd : p_Device.I2C.Read = some rd) (hwr : p_Device.I2C.Write = some wr)
    (hinit : p_Device.Internal.isInitialized = true)
    (hne : p_Device.Internal.isShutdown ≠ Enable)
    (hread : rd MCP9808_REG_CONFIG 2 p_Device.I2C.Address w.ext = (0, data, e1))
    (X : Nat)
    (hX : X = ((configWord data &&& (0xFFFF - (0x01 <<< 0x08))) ||| (Enable.toNat <<< 0x08))) :
    MCP9808_SwitchShutdown p_Device Enable w
      = some ⟨if (wr MCP9808_REG_CONFIG [X >>> 0x08, X &&& 0xFF] 2 p_Device.I2C.Address e1).1 ≠ 0
              then MCP9808_ERR_INVALID_RESPONSE else MCP9808_ERR_OK,
            if (wr MCP9808_REG_CONFIG [X >>> 0x08, X &&& 0xFF] 2 p_Device.I2C.Address e1).1 ≠ 0
              then p_Device
              else { p_Device with Internal := { p_Device.Internal with isShutdown := Enable } },
            { ext := (wr MCP9808_REG_CONFIG [X >>> 0x08, X &&& 0xFF] 2 p_Device.I2C.Address e1).2
              log := w.log ++ [Event.read MCP9808_REG_CONFIG 2 0 data,
                Event.write MCP9808_REG_CONFIG [X >>> 0x08, X &&& 0xFF]
                  (wr MCP9808_REG_CONFIG [X >>> 0x08, X &&& 0xFF] 2 p_Device.I2C.Address e1).1] },
            ()⟩ := by
  have hU := ModifyBits_unfold p_Device w rd wr MCP9808_REG_CONFIG (0x01 <<< 0x08)
    (Enable.toNat <<< 0x08) data e1 hrd hwr (shutdown_mask_facts Enable).1
    (shutdown_mask_facts Enable).2 hread X hX
  have hne2 : MCP9808_ERR_INVALID_RESPONSE ≠ MCP9808_ERR_OK := by decide
  simp only [MCP9808_SwitchShutdown, hinit, hne, hU]
  simp only [Bool.true_eq_false, if_false]
  split_ifs <;> simp_all

/-- C13: `MCP9808_SwitchShutdown` on an initialized handle. (a) If the cached
shutdown flag already equals `Enable` it returns OK and leaves handle and
environment untouched (no transport call). (b) Otherwise, the configuration
read succeeding, it performs exactly one configuration read and one
configuration write, and when the write succeeds it returns OK with the
cached flag set to `Enable`. (c) Hence on an active handle with a succeeding
transport, `SwitchShutdown(true)` twice in a row issues exactly one read and
one write in total, both in the first call. -/
theorem C13_SwitchShutdown {σ : Type} (p_Device : MCP9808_t σ) (w : World σ)
    (rd : MCP9808_Read_t σ) (wr : MCP9808_Write_t σ)
    (hrd : p_Device.I2C.Read = some rd) (hwr : p_Device.I2C.Write = some wr)
    (hinit : p_Device.Internal.isInitialized = true) :
    (∀ Enable : Bool, p_Device.Internal.isShutdown = Enable →
      MCP9808_SwitchShutdown p_Device Enable w = some ⟨MCP9808_ERR_OK, p_Device, w, ()⟩) ∧
    (∀ (Enable : Bool) (data : List Nat) (e1 : σ),
      p_Device.Internal.isShutdown ≠ Enable →
      rd MCP9808_REG_CONFIG 2 p_Device.I2C.Address w.ext = (0, data, e1) →
      ∃ r bytes st, MCP9808_SwitchShutdown p_Device Enable w = some r ∧
        r.world.log = w.log ++ [Event.read MCP9808_REG_CONFIG 2 0 data,
          Event.write MCP9808_REG_CONFIG bytes st] ∧
        (st = 0 → r.Error = MCP9808_ERR_OK ∧ r.Device.Internal.isShutdown = Enable ∧
          r.Device.Internal.isInitialized = true)) ∧
    (∀ (data : List Nat) (e1 : σ),
      p_Device.Internal.isShutdown = false →
      rd MCP9808_REG_CONFIG 2 p_Device.I2C.Address w.ext = (0, data, e1) →
      (∀ bytes, (wr MCP9808_REG_CONFIG bytes 2 p_Device.I2C.Address e1).1 = 0) →
      ∃ r1 r2 bytes, MCP9808_SwitchShutdown p_Device true w = some r1 ∧
        MCP9808_SwitchShutdown r1.Device true r1.world = some r2 ∧
        r1.Error = MCP9808_ERR_OK ∧ r2.Error = MCP9808_ERR_OK ∧
        r2.world.log = w.log ++ [Event.read MCP9808_REG_CONFIG 2 0 data,
          Event.write MCP9808_REG_CONFIG bytes 0]) := by
  refine ⟨?_, ?_, ?_⟩
  · intro Enable heq
    simp [MCP9808_SwitchShutdown, hinit, heq]
  · intro Enable data e1 hne hread
    have hU := SwitchShutdown_unfold p_Device w rd wr Enable data e1 hrd hwr hinit hne hread
      _ rfl
    refine ⟨_, _, _, hU, rfl, ?_⟩
    generalize (wr MCP9808_REG_CONFIG _ 2 p_Device.I2C.Address e1).1 = st
    intro hst
    subst hst
    exact ⟨rfl, rfl, hinit⟩
  · intro data e1 hsd hread hwrite
    have hne : p_Device.Internal.isShutdown ≠ true := by rw [hsd]; decide
    have hU := SwitchShutdown_unfold p_Device w rd wr true data e1 hrd hwr hinit hne hread
      _ rfl
    simp only [hwrite, ne_eq, not_true_eq_false, if_false] at hU
    have h2 : ∀ W1 : World σ,
        MCP9808_SwitchShutdown
            { p_Device with Internal := { p_Device.Internal with isShutdown := true } } true W1
          = some ⟨MCP9808_ERR_OK,
              { p_Device with Internal := { p_Device.Internal with isShutdown := true } },
              W1, ()⟩ := by
      intro W1
      simp [MCP9808_SwitchShutdown, hinit]
    exact ⟨_, _, _, hU, h2 _, rfl, rfl, rfl⟩

/-- C13, witness: the simulated sensor, an initialized active handle. -/
theorem C13_SwitchShutdown_witness :
    MCP9808_SwitchShutdown (simHandle true false) false (simWorld goodRegs)
      = some ⟨MCP9808_ERR_OK, simHandle true false, simWorld goodRegs, ()⟩ ∧
    (∃ r bytes st, MCP9808_SwitchShutdown (simHandle true false) true (simWorld goodRegs)
        = some r ∧
      r.world.log = (simWorld goodRegs).log ++ [Event.read MCP9808_REG_CONFIG 2 0 [0x00, 0x1F],
        Event.write MCP9808_REG_CONFIG bytes st] ∧
      (st = 0 → r.Error = MCP9808_ERR_OK ∧ r.Device.Internal.isShutdown = true ∧
        r.Device.Internal.isInitialized = true)) ∧
    (∃ r1 r2 bytes, MCP9808_SwitchShutdown (simHandle true false) true (simWorld goodRegs)
        = some r1 ∧
      MCP9808_SwitchShutdown r1.Device true r1.world = some r2 ∧
      r1.Error = MCP9808_ERR_OK ∧ r2.Error = MCP9808_ERR_OK ∧
      r2.world.log = (simWorld goodRegs).log ++ [Event.read MCP9808_REG_CONFIG 2 0 [0x00, 0x1F],
        Event.write MCP9808_REG_CONFIG bytes 0]) :=
  ⟨(C13_SwitchShutdown (simHandle true false) (simWorld goodRegs) simRead simWrite
      rfl rfl rfl).1 false rfl,
   (C13_SwitchShutdown (simHandle true false) (simWorld goodRegs) simRead simWrite
      rfl rfl rfl).2.1 true [0x00, 0x1F] goodRegs (by decide) rfl,
   (C13_SwitchShutdown (simHandle true false) (simWorld goodRegs) simRead simWrite
      rfl rfl rfl).2.2 [0x00, 0x1F] goodRegs rfl rfl (fun _ => rfl)⟩

/-- C14: on an initialized handle whose cached shutdown flag differs from
`Enable`. (a) If the configuration read returns a nonzero status,
`MCP9808_SwitchShutdown` returns InvalidResponse after that one read, issues
no write and leaves the handle (the cached flag included) as it was. (b) If
the read succeeds, it issues one configuration write, and if the status `st`
the transport returns for that write is nonzero, it returns InvalidResponse
and leaves the handle (the cached flag included) as it was. -/
theorem C14_SwitchShutdown_failures {σ : Type} (p_Device : MCP9808_t σ) (w : World σ)
    (rd : MCP9808_Read_t σ) (Enable : Bool)
    (hrd : p_Device.I2C.Read = some rd)
    (hinit : p_Device.Internal.isInitialized = true)
    (hne : p_Device.Internal.isShutdown ≠ Enable) :
    (∀ (s1 : Int) (data : List Nat) (e1 : σ),
      rd MCP9808_REG_CONFIG 2 p_Device.I2C.Address w.ext = (s1, data, e1) → s1 ≠ 0 →
      MCP9808_SwitchShutdown p_Device Enable w
        = some ⟨MCP9808_ERR_INVALID_RESPONSE, p_Device,
            { ext := e1, log := w.log ++ [Event.read MCP9808_REG_CONFIG 2 s1 data] }, ()⟩) ∧
    (∀ (wr : MCP9808_Write_t σ) (data : List Nat) (e1 : σ),
      p_Device.I2C.Write = some wr →
      rd MCP9808_REG_CONFIG 2 p_Device.I2C.Address w.ext = (0, data, e1) →
      ∃ r bytes st, MCP9808_SwitchShutdown p_Device Enable w = some r ∧
        r.world.log = w.log ++ [Event.read MCP9808_REG_CONFIG 2 0 data,
          Event.write MCP9808_REG_CONFIG bytes st] ∧
        st = (wr MCP9808_REG_CONFIG bytes 2 p_Device.I2C.Address e1).1 ∧
        (st ≠ 0 →
          r.Error = MCP9808_ERR_INVALID_RESPONSE ∧ r.Device = p_Device ∧
          r.Device.Internal.isShutdown = p_Device.Internal.isShutdown)) := by
  have hne2 : MCP9808_ERR_INVALID_RESPONSE ≠ MCP9808_ERR_OK := by decide
  constructor
  · intro s1 data e1 hread hs
    have hM := ModifyBits_read_failed p_Device w rd MCP9808_REG_CONFIG (0x01 <<< 0x08)
      (Enable.toNat <<< 0x08) s1 data e1 hrd hread hs
    simp only [MCP9808_SwitchShutdown, hinit, hne, hM]
    simp [hne2]
  · intro wr data e1 hwr hread
    have hU := SwitchShutdown_unfold p_Device w rd wr Enable data e1 hrd hwr hinit hne hread
      _ rfl
    refine ⟨_, _, _, hU, rfl, rfl, ?_⟩
    generalize (wr MCP9808_REG_CONFIG _ 2 p_Device.I2C.Address e1).1 = st
    intro hst
    simp [hst]

/-- C14, witness: (a) the simulated sensor failing the configuration read,
(b) the simulated sensor whose write fails only on the bytes `{0x01, 0x1F}`,
the bytes presented when shutdown is enabled over configuration
`{0x00, 0x1F}`. -/
theorem C14_SwitchShutdown_failures_witness :
    MCP9808_SwitchShutdown (flakyHandle 1 true false) true (simWorld goodRegs)
      = some ⟨MCP9808_ERR_INVALID_RESPONSE, flakyHandle 1 true false,
          { ext := goodRegs,
            log := (simWorld goodRegs).log ++ [Event.read MCP9808_REG_CONFIG 2 (-1) []] }, ()⟩ ∧
    (∃ r bytes st,
      MCP9808_SwitchShutdown (pickyHandle [0x01, 0x1F] true false) true (simWorld goodRegs)
        = some r ∧
      r.world.log = (simWorld goodRegs).log ++ [Event.read MCP9808_REG_CONFIG 2 0 [0x00, 0x1F],
        Event.write MCP9808_REG_CONFIG bytes st] ∧
      st = (pickyWrite [0x01, 0x1F] MCP9808_REG_CONFIG bytes 2
        (pickyHandle [0x01, 0x1F] true false).I2C.Address goodRegs).1 ∧
      (st ≠ 0 →
        r.Error = MCP9808_ERR_INVALID_RESPONSE ∧
        r.Device = pickyHandle [0x01, 0x1F] true false ∧
        r.Device.Internal.isShutdown
          = (pickyHandle [0x01, 0x1F] true false).Internal.isShutdown)) :=
  ⟨(C14_SwitchShutdown_failures (flakyHandle 1 true false) (simWorld goodRegs) (flakyRead 1)
      true rfl rfl (by decide)).1 (-1) [] goodRegs rfl (by decide),
   (C14_SwitchShutdown_failures (pickyHandle [0x01, 0x1F] true false) (simWorld goodRegs)
      simRead true rfl rfl (by decide)).2 (pickyWrite [0x01, 0x1F]) [0x00, 0x1F] goodRegs
      rfl rfl⟩

/-! ## Alarm callbacks -/

set_option maxRecDepth 20000 in
theorem alarmFlag_tests (b : Nat) (hb : b < 256) :
    (((b &&& (0x01 <<< MCP9808_BIT_TCRIT)) >>> MCP9808_BIT_TCRIT ≠ 0) ↔ b &&& 0x80 ≠ 0) ∧
    (((b &&& (0x01 <<< MCP9808_BIT_TUPPER)) >>> MCP9808_BIT_TUPPER ≠ 0) ↔ b &&& 0x40 ≠ 0) ∧
    (((b &&& (0x01 <<< MCP9808_BIT_TLOWER)) >>> MCP9808_BIT_TLOWER ≠ 0) ↔ b &&& 0x20 ≠ 0) := by
  have h : ∀ n, n < 256 →
      ((((n &&& (0x01 <<< MCP9808_BIT_TCRIT)) >>> MCP9808_BIT_TCRIT ≠ 0) ↔ n &&& 0x80 ≠ 0) ∧
       (((n &&& (0x01 <<< MCP9808_BIT_TUPPER)) >>> MCP9808_BIT_TUPPER ≠ 0) ↔ n &&& 0x40 ≠ 0) ∧
       (((n &&& (0x01 <<< MCP9808_BIT_TLOWER)) >>> MCP9808_BIT_TLOWER ≠ 0) ↔ n &&& 0x20 ≠ 0)) := by
    decide
  exact h b hb

set_option maxRecDepth 20000 in
theorem isolatedFlag (b : Nat) (hb : b < 256) :
    (b &&& 0xE0 = 0x80 → b &&& 0x80 ≠ 0 ∧ b &&& 0x40 = 0 ∧ b &&& 0x20 = 0) ∧
    (b &&& 0xE0 = 0x40 → b &&& 0x80 = 0 ∧ b &&& 0x40 ≠ 0 ∧ b &&& 0x20 = 0) ∧
    (b &&& 0xE0 = 0x20 → b &&& 0x80 = 0 ∧ b &&& 0x40 = 0 ∧ b &&& 0x20 ≠ 0) := by
  have h : ∀ n, n < 256 →
      ((n &&& 0xE0 = 0x80 → n &&& 0x80 ≠ 0 ∧ n &&& 0x40 = 0 ∧ n &&& 0x20 = 0) ∧
       (n &&& 0xE0 = 0x40 → n &&& 0x80 = 0 ∧ n &&& 0x40 ≠ 0 ∧ n &&& 0x20 = 0) ∧
       (n &&& 0xE0 = 0x20 → n &&& 0x80 = 0 ∧ n &&& 0x40 = 0 ∧ n &&& 0x20 ≠ 0)) := by
    decide
  exact h b hb

/-- The effect of a successful `MCP9808_GetTemperature` on the environment.
The log gains the read, then the callbacks that are both flagged and
registered, in the order critical, upper, lower, each with the decoded
temperature, which is also the value delivered; the environment is the one
the read left, with those callbacks applied to it in that order. -/
theorem GetTemperature_log {σ : Type} (p_Device : MCP9808_t σ) (w : World σ)
    (rd : MCP9808_Read_t σ) (old : Int) (data : List Nat) (e : σ)
    (hinit : p_Device.Internal.isInitialized = true)
    (hactive : p_Device.Internal.isShutdown = false)
    (hrd : p_Device.I2C.Read = some rd)
    (hread : rd MCP9808_REG_TEMP_AMBIENT 2 p_Device.I2C.Address w.ext = (0, data, e)) :
    ∃ r, MCP9808_GetTemperature p_Device (some old) w = some r ∧
      r.Error = MCP9808_ERR_OK ∧
      r.out = some (decodedTemperature (byteAt data 0) (byteAt data 1)) ∧
      r.world.log = w.log ++ [Event.read MCP9808_REG_TEMP_AMBIENT 2 0 data]
        ++ (if byteAt data 0 &&& 0x80 ≠ 0 ∧ p_Device.TCrit_Alarm.isSome = true
            then [Event.alarm AlarmKind.TCrit
              (decodedTemperature (byteAt data 0) (byteAt data 1))] else [])
        ++ (if byteAt data 0 &&& 0x40 ≠ 0 ∧ p_Device.TUpper_Alarm.isSome = true
            then [Event.alarm AlarmKind.TUpper
              (decodedTemperature (byteAt data 0) (byteAt data 1))] else [])
        ++ (if byteAt data 0 &&& 0x20 ≠ 0 ∧ p_Device.TLower_Alarm.isSome = true
            then [Event.alarm AlarmKind.TLower
              (decodedTemperature (byteAt data 0) (byteAt data 1))] else []) ∧
      r.world.ext
        = invokeIf (byteAt data 0 &&& 0x20 ≠ 0) p_Device.TLower_Alarm
            (decodedTemperature (byteAt data 0) (byteAt data 1))
            (invokeIf (byteAt data 0 &&& 0x40 ≠ 0) p_Device.TUpper_Alarm
              (decodedTemperature (byteAt data 0) (byteAt data 1))
              (invokeIf (byteAt data 0 &&& 0x80 ≠ 0) p_Device.TCrit_Alarm
                (decodedTemperature (byteAt data 0) (byteAt data 1)) e)) := by
  obtain ⟨h7, h6, h5⟩ := alarmFlag_tests (byteAt data 0) (byteAt_lt data 0)
  simp only [MCP9808_GetTemperature, hinit, hactive, hrd, busRead, hread, signBit_test,
    h7, h6, h5, decodedTemperature, invokeIf]
  cases p_Device.TCrit_Alarm <;> cases p_Device.TUpper_Alarm <;>
    cases p_Device.TLower_Alarm <;>
    by_cases b7 : byteAt data 0 &&& 0x80 = 0 <;>
    by_cases b6 : byteAt data 0 &&& 0x40 = 0 <;>
    by_cases b5 : byteAt data 0 &&& 0x20 = 0 <;>
    simp [fireAlarm, b7, b6, b5]

theorem newEvents_append (before added : List Event) :
    newEvents before (before ++ added) = added := by
  simp [newEvents]

/-- C15: for every ambient-register value and every combination of
registered and unregistered callbacks, a successful `MCP9808_GetTemperature`
invokes exactly this sequence of callbacks, each with the decoded temperature
(the value delivered): the critical callback if bit 7 of byte 0 is set and it
is registered, then the upper callback if bit 6 is set and it is registered,
then the lower callback if bit 5 is set and it is registered. The log gains
the read followed by exactly those invocations, and the environment is the
one the read left with exactly those callbacks applied to it in that order.
So a flag set in isolation triggers its own registered callback once and no
other: the log gains the read and that one invocation, and the environment
is that callback applied once to what the read left. -/
theorem C15_alarm_sequence {σ : Type} (p_Device : MCP9808_t σ) (w : World σ)
    (rd : MCP9808_Read_t σ) (old : Int) (data : List Nat) (e : σ)
    (hinit : p_Device.Internal.isInitialized = true)
    (hactive : p_Device.Internal.isShutdown = false)
    (hrd : p_Device.I2C.Read = some rd)
    (hread : rd MCP9808_REG_TEMP_AMBIENT 2 p_Device.I2C.Address w.ext = (0, data, e)) :
    ∃ r, MCP9808_GetTemperature p_Device (some old) w = some r ∧
      r.Error = MCP9808_ERR_OK ∧
      r.out = some (decodedTemperature (byteAt data 0) (byteAt data 1)) ∧
      r.world.log = w.log ++ [Event.read MCP9808_REG_TEMP_AMBIENT 2 0 data]
        ++ (if byteAt data 0 &&& 0x80 ≠ 0 ∧ p_Device.TCrit_Alarm.isSome = true
            then [Event.alarm AlarmKind.TCrit
              (decodedTemperature (byteAt data 0) (byteAt data 1))] else [])
        ++ (if byteAt data 0 &&& 0x40 ≠ 0 ∧ p_Device.TUpper_Alarm.isSome = true
            then [Event.alarm AlarmKind.TUpper
              (decodedTemperature (byteAt data 0) (byteAt data 1))] else [])
        ++ (if byteAt data 0 &&& 0x20 ≠ 0 ∧ p_Device.TLower_Alarm.isSome = true
            then [Event.alarm AlarmKind.TLower
              (decodedTemperature (byteAt data 0) (byteAt data 1))] else []) ∧
      r.world.ext
        = invokeIf (byteAt data 0 &&& 0x20 ≠ 0) p_Device.TLower_Alarm
            (decodedTemperature (byteAt data 0) (byteAt data 1))
            (invokeIf (byteAt data 0 &&& 0x40 ≠ 0) p_Device.TUpper_Alarm
              (decodedTemperature (byteAt data 0) (byteAt data 1))
              (invokeIf (byteAt data 0 &&& 0x80 ≠ 0) p_Device.TCrit_Alarm
                (decodedTemperature (byteAt data 0) (byteAt data 1)) e)) ∧
      (byteAt data 0 &&& 0xE0 = 0x80 → p_Device.TCrit_Alarm.isSome = true →
        newEvents w.log r.world.log = [Event.read MCP9808_REG_TEMP_AMBIENT 2 0 data,
          Event.alarm AlarmKind.TCrit
            (decodedTemperature (byteAt data 0) (byteAt data 1))]) ∧
      (byteAt data 0 &&& 0xE0 = 0x40 → p_Device.TUpper_Alarm.isSome = true →
        newEvents w.log r.world.log = [Event.read MCP9808_REG_TEMP_AMBIENT 2 0 data,
          Event.alarm AlarmKind.TUpper
            (decodedTemperature (byteAt data 0) (byteAt data 1))]) ∧
      (byteAt data 0 &&& 0xE0 = 0x20 → p_Device.TLower_Alarm.isSome = true →
        newEvents w.log r.world.log = [Event.read MCP9808_REG_TEMP_AMBIENT 2 0 data,
          Event.alarm AlarmKind.TLower
            (decodedTemperature (byteAt data 0) (byteAt data 1))]) ∧
      (byteAt data 0 &&& 0xE0 = 0x80 →
        ∀ f : MCP9808_Alarm_t σ, p_Device.TCrit_Alarm = some f →
          r.world.ext = f (decodedTemperature (byteAt data 0) (byteAt data 1)) e) ∧
      (byteAt data 0 &&& 0xE0 = 0x40 →
        ∀ f : MCP9808_Alarm_t σ, p_Device.TUpper_Alarm = some f →
          r.world.ext = f (decodedTemperature (byteAt data 0) (byteAt data 1)) e) ∧
      (byteAt data 0 &&& 0xE0 = 0x20 →
        ∀ f : MCP9808_Alarm_t σ, p_Device.TLower_Alarm = some f →
          r.world.ext = f (decodedTemperature (byteAt data 0) (byteAt data 1)) e) := by
  obtain ⟨r, hr, herr, hout, hlog, hext⟩ :=
    GetTemperature_log p_Device w rd old data e hinit hactive hrd hread
  obtain ⟨i7, i6, i5⟩ := isolatedFlag (byteAt data 0) (byteAt_lt data 0)
  refine ⟨r, hr, herr, hout, hlog, hext, ?_, ?_, ?_, ?_, ?_, ?_⟩
  · intro hiso hreg
    obtain ⟨b7, b6, b5⟩ := i7 hiso
    rw [hlog, List.append_assoc, List.append_assoc, List.append_assoc, newEvents_append]
    simp [b7, b6, b5, hreg]
  · intro hiso hreg
    obtain ⟨b7, b6, b5⟩ := i6 hiso
    rw [hlog, List.append_assoc, List.append_assoc, List.append_assoc, newEvents_append]
    simp [b7, b6, b5, hreg]
  · intro hiso hreg
    obtain ⟨b7, b6, b5⟩ := i5 hiso
    rw [hlog, List.append_assoc, List.append_assoc, List.append_assoc, newEvents_append]
    simp [b7, b6, b5, hreg]
  · intro hiso f hf
    obtain ⟨b7, b6, b5⟩ := i7 hiso
    rw [hext]
    simp [invokeIf, b7, b6, b5, hf]
  · intro hiso f hf
    obtain ⟨b7, b6, b5⟩ := i6 hiso
    rw [hext]
    simp [invokeIf, b7, b6, b5, hf]
  · intro hiso f hf
    obtain ⟨b7, b6, b5⟩ := i5 hiso
    rw [hext]
    simp [invokeIf, b7, b6, b5, hf]

/-- C15, witness: all three callbacks registered (each leaves a note in the
environment), ambient register `{0x81, 0x90}` (critical flag alone, 25 °C) on
the simulated sensor. -/
theorem C15_alarm_sequence_witness :
    ∃ r, MCP9808_GetTemperature (alarmHandle true true true) (some 0) (simWorld [(5, [0x81, 0x90])]) = some r ∧
      r.Error = MCP9808_ERR_OK ∧
      r.out = some (decodedTemperature (byteAt [0x81, 0x90] 0) (byteAt [0x81, 0x90] 1)) ∧
      r.world.log = (simWorld [(5, [0x81, 0x90])]).log ++ [Event.read MCP9808_REG_TEMP_AMBIENT 2 0 [0x81, 0x90]]
        ++ (if byteAt [0x81, 0x90] 0 &&& 0x80 ≠ 0 ∧ (alarmHandle true true true).TCrit_Alarm.isSome = true
            then [Event.alarm AlarmKind.TCrit
              (decodedTemperature (byteAt [0x81, 0x90] 0) (byteAt [0x81, 0x90] 1))] else [])
        ++ (if byteAt [0x81, 0x90] 0 &&& 0x40 ≠ 0 ∧ (alarmHandle true true true).TUpper_Alarm.isSome = true
            then [Event.alarm AlarmKind.TUpper
              (decodedTemperature (byteAt [0x81, 0x90] 0) (byteAt [0x81, 0x90] 1))] else [])
        ++ (if byteAt [0x81, 0x90] 0 &&& 0x20 ≠ 0 ∧ (alarmHandle true true true).TLower_Alarm.isSome = true
            then [Event.alarm AlarmKind.TLower
              (decodedTemperature (byteAt [0x81, 0x90] 0) (byteAt [0x81, 0x90] 1))] else []) ∧
      r.world.ext
        = invokeIf (byteAt [0x81, 0x90] 0 &&& 0x20 ≠ 0) (alarmHandle true true true).TLower_Alarm
            (decodedTemperature (byteAt [0x81, 0x90] 0) (byteAt [0x81, 0x90] 1))
            (invokeIf (byteAt [0x81, 0x90] 0 &&& 0x40 ≠ 0) (alarmHandle true true true).TUpper_Alarm
              (decodedTemperature (byteAt [0x81, 0x90] 0) (byteAt [0x81, 0x90] 1))
              (invokeIf (byteAt [0x81, 0x90] 0 &&& 0x80 ≠ 0) (alarmHandle true true true).TCrit_Alarm
                (decodedTemperature (byteAt [0x81, 0x90] 0) (byteAt [0x81, 0x90] 1)) [(5, [0x81, 0x90])])) ∧
      (byteAt [0x81, 0x90] 0 &&& 0xE0 = 0x80 → (alarmHandle true true true).TCrit_Alarm.isSome = true →
        newEvents (simWorld [(5, [0x81, 0x90])]).log r.world.log = [Event.read MCP9808_REG_TEMP_AMBIENT 2 0 [0x81, 0x90],
          Event.alarm AlarmKind.TCrit
            (decodedTemperature (byteAt [0x81, 0x90] 0) (byteAt [0x81, 0x90] 1))]) ∧
      (byteAt [0x81, 0x90] 0 &&& 0xE0 = 0x40 → (alarmHandle true true true).TUpper_Alarm.isSome = true →
        newEvents (simWorld [(5, [0x81, 0x90])]).log r.world.log = [Event.read MCP9808_REG_TEMP_AMBIENT 2 0 [0x81, 0x90],
          Event.alarm AlarmKind.TUpper
            (decodedTemperature (byteAt [0x81, 0x90] 0) (byteAt [0x81, 0x90] 1))]) ∧
      (byteAt [0x81, 0x90] 0 &&& 0xE0 = 0x20 → (alarmHandle true true true).TLower_Alarm.isSome = true →
        newEvents (simWorld [(5, [0x81, 0x90])]).log r.world.log = [Event.read MCP9808_REG_TEMP_AMBIENT 2 0 [0x81, 0x90],
          Event.alarm AlarmKind.TLower
            (decodedTemperature (byteAt [0x81, 0x90] 0) (byteAt [0x81, 0x90] 1))]) ∧
      (byteAt [0x81, 0x90] 0 &&& 0xE0 = 0x80 →
        ∀ f : MCP9808_Alarm_t SimDev, (alarmHandle true true true).TCrit_Alarm = some f →
          r.world.ext = f (decodedTemperature (byteAt [0x81, 0x90] 0) (byteAt [0x81, 0x90] 1)) [(5, [0x81, 0x90])]) ∧
      (byteAt [0x81, 0x90] 0 &&& 0xE0 = 0x40 →
        ∀ f : MCP9808_Alarm_t SimDev, (alarmHandle true true true).TUpper_Alarm = some f →
          r.world.ext = f (decodedTemperature (byteAt [0x81, 0x90] 0) (byteAt [0x81, 0x90] 1)) [(5, [0x81, 0x90])]) ∧
      (byteAt [0x81, 0x90] 0 &&& 0xE0 = 0x20 →
        ∀ f : MCP9808_Alarm_t SimDev, (alarmHandle true true true).TLower_Alarm = some f →
          r.world.ext = f (decodedTemperature (byteAt [0x81, 0x90] 0) (byteAt [0x81, 0x90] 1)) [(5, [0x81, 0x90])]) :=
  C15_alarm_sequence (alarmHandle true true true) (simWorld [(5, [0x81, 0x90])]) simRead 0
    [0x81, 0x90] [(5, [0x81, 0x90])] rfl rfl rfl rfl

/-! ## Threshold registers -/

/-- C18: every getter called with a null output pointer returns
InvalidArgument and leaves the handle and the environment (no transport
call) exactly as they were, whatever the initialized and shutdown flags are. -/
theorem C18_null_output {σ : Type} (p_Device : MCP9808_t σ) (w : World σ) :
    MCP9808_GetTemperature p_Device none w = some ⟨MCP9808_ERR_INVALID_ARG, p_Device, w, none⟩ ∧
    MCP9808_GetTupper p_Device none w = some ⟨MCP9808_ERR_INVALID_ARG, p_Device, w, none⟩ ∧
    MCP9808_GetTlower p_Device none w = some ⟨MCP9808_ERR_INVALID_ARG, p_Device, w, none⟩ ∧
    MCP9808_GetTcrit p_Device none w = some ⟨MCP9808_ERR_INVALID_ARG, p_Device, w, none⟩ ∧
    MCP9808_GetHysteresis p_Device none w = some ⟨MCP9808_ERR_INVALID_ARG, p_Device, w, none⟩ ∧
    MCP9808_GetResolution p_Device none w = some ⟨MCP9808_ERR_INVALID_ARG, p_Device, w, none⟩ :=
  ⟨rfl, rfl, rfl, rfl, rfl, rfl⟩

/-- `MCP9808_ModifyBits` never changes the handle. -/
theorem ModifyBits_device {σ : Type} (p_Device : MCP9808_t σ) (w : World σ)
    (Register Mask Value : Nat) (r : Outcome σ Unit)
    (h : MCP9808_ModifyBits p_Device Register Mask Value w = some r) : r.Device = p_Device := by
  simp only [MCP9808_ModifyBits] at h
  repeat' split at h
  all_goals first | contradiction | (cases h; rfl)

/-- `MCP9808_SetHysteresis` never changes the handle. -/
theorem SetHysteresis_device {σ : Type} (p_Device : MCP9808_t σ) (w : World σ)
    (Hysteresis : MCP9808_Hysteresis_t) (r : Outcome σ Unit)
    (h : MCP9808_SetHysteresis p_Device Hysteresis w = some r) : r.Device = p_Device :=
  ModifyBits_device p_Device w _ _ _ r h

/-- `MCP9808_GetTemperature` never changes the handle. -/
theorem GetTemperature_device {σ : Type} (p_Device : MCP9808_t σ) (w : World σ)
    (p_Temperature : Option Int) (r : Outcome σ (Option Int))
    (h : MCP9808_GetTemperature p_Device p_Temperature w = some r) : r.Device = p_Device := by
  simp only [MCP9808_GetTemperature] at h
  repeat' split at h
  all_goals first | contradiction | (cases h; rfl)

/-- `MCP9808_SetTupper` never changes the handle. -/
theorem SetTupper_device {σ : Type} (p_Device : MCP9808_t σ) (w : World σ)
    (Limit : Int) (r : Outcome σ (Unit))
    (h : MCP9808_SetTupper p_Device Limit w = some r) : r.Device = p_Device := by
  simp only [MCP9808_SetTupper] at h
  repeat' split at h
  all_goals first | contradiction | (cases h; rfl)

/-- `MCP9808_GetTupper` never changes the handle. -/
theorem GetTupper_device {σ : Type} (p_Device : MCP9808_t σ) (w : World σ)
    (p_Limit : Option Int) (r : Outcome σ (Option Int))
    (h : MCP9808_GetTupper p_Device p_Limit w = some r) : r.Device = p_Device := by
  simp only [MCP9808_GetTupper] at h
  repeat' split at h
  all_goals first | contradiction | (cases h; rfl)

/-- `MCP9808_SetTlower` never changes the handle. -/
theorem SetTlower_device {σ : Type} (p_Device : MCP9808_t σ) (w : World σ)
    (Limit : Int) (r : Outcome σ (Unit))
    (h : MCP9808_SetTlower p_Device Limit w = some r) : r.Device = p_Device := by
  simp only [MCP9808_SetTlower] at h
  repeat' split at h
  all_goals first | contradiction | (cases h; rfl)

/-- `MCP9808_GetTlower` never changes the handle. -/
theorem GetTlower_device {σ : Type} (p_Device : MCP9808_t σ) (w : World σ)
    (p_Limit : Option Int) (r : Outcome σ (Option Int))
    (h : MCP9808_GetTlower p_Device p_Limit w = some r) : r.Device = p_Device := by
  simp only [MCP9808_GetTlower] at h
  repeat' split at h
  all_goals first | contradiction | (cases h; rfl)

/-- `MCP9808_SetTcrit` never changes the handle. -/
theorem SetTcrit_device {σ : Type} (p_Device : MCP9808_t σ) (w : World σ)
    (Limit : Int) (r : Outcome σ (Unit))
    (h : MCP9808_SetTcrit p_Device Limit w = some r) : r.Device = p_Device := by
  simp only [MCP9808_SetTcrit] at h
  repeat' split at h
  all_goals first | contradiction | (cases h; rfl)

/-- `MCP9808_GetTcrit` never changes the handle. -/
theorem GetTcrit_device {σ : Type} (p_Device : MCP9808_t σ) (w : World σ)
    (p_Limit : Option Int) (r : Outcome σ (Option Int))
    (h : MCP9808_GetTcrit p_Device p_Limit w = some r) : r.Device = p_Device := by
  simp only [MCP9808_GetTcrit] at h
  repeat' split at h
  all_goals first | contradiction | (cases h; rfl)

/-- `MCP9808_GetHysteresis` never changes the handle. -/
theorem GetHysteresis_device {σ : Type} (p_Device : MCP9808_t σ) (w : World σ)
    (p_Hysteresis : Option Nat) (r : Outcome σ (Option Nat))
    (h : MCP9808_GetHysteresis p_Device p_Hysteresis w = some r) : r.Device = p_Device := by
  simp only [MCP9808_GetHysteresis] at h
  repeat' split at h
  all_goals first | contradiction | (cases h; rfl)

/-- `MCP9808_SetResolution` never changes the handle. -/
theorem SetResolution_device {σ : Type} (p_Device : MCP9808_t σ) (w : World σ)
    (Resolution : MCP9808_Resolution_t) (r : Outcome σ (Unit))
    (h : MCP9808_SetResolution p_Device Resolution w = some r) : r.Device = p_Device := by
  simp only [MCP9808_SetResolution] at h
  repeat' split at h
  all_goals first | contradiction | (cases h; rfl)

/-- `MCP9808_GetResolution` never changes the handle. -/
theorem GetResolution_device {σ : Type} (p_Device : MCP9808_t σ) (w : World σ)
    (p_Resolution : Option Nat) (r : Outcome σ (Option Nat))
    (h : MCP9808_GetResolution p_Device p_Resolution w = some r) : r.Device = p_Device := by
  simp only [MCP9808_GetResolution] at h
  repeat' split at h
  all_goals first | contradiction | (cases h; rfl)

/-- `MCP9808_SwitchShutdown` changes the handle only when it returns OK. -/
theorem SwitchShutdown_device {σ : Type} (p_Device : MCP9808_t σ) (w : World σ)
    (Enable : Bool) (r : Outcome σ Unit)
    (h : MCP9808_SwitchShutdown p_Device Enable w = some r)
    (hne : r.Error ≠ MCP9808_ERR_OK) : r.Device = p_Device := by
  simp only [MCP9808_SwitchShutdown] at h
  split at h
  · cases h; rfl
  · split at h
    · cases h; rfl
    · split at h
      · contradiction
      · rename_i r0 hM
        have hd := ModifyBits_device p_Device w _ _ _ r0 hM
        split at h
        · cases h; exact hd
        · cases h; exact absurd rfl hne

/-- What a failing `MCP9808_Init` leaves of the handle: the two flags always,
the whole handle unless the status is Locked. -/
theorem Init_failure_frame {σ : Type} (p_Device : MCP9808_t σ) (w : World σ)
    (hne : (MCP9808_Init p_Device w).Error ≠ MCP9808_ERR_OK) :
    (MCP9808_Init p_Device w).Device.Internal = p_Device.Internal ∧
    ((MCP9808_Init p_Device w).Error ≠ MCP9808_ERR_LOCKED →
      (MCP9808_Init p_Device w).Device = p_Device) := by
  cases hrd : p_Device.I2C.Read with
  | none => simp [MCP9808_Init, hrd]
  | some rd =>
    cases hwr : p_Device.I2C.Write with
    | none => simp [MCP9808_Init, hrd, hwr]
    | some wr =>
      by_cases haddr : p_Device.I2C.Address < 0x18
      · simp [MCP9808_Init, hrd, hwr, haddr]
      · cases hinit : p_Device.Internal.isInitialized with
        | true => simp [MCP9808_Init, hrd, hwr, haddr, hinit]
        | false =>
          have hge : 0x18 ≤ p_Device.I2C.Address := by omega
          rw [Init_unfold p_Device w rd wr hrd hwr hge hinit] at hne ⊢
          simp only at hne ⊢
          split_ifs at hne ⊢ <;> simp_all

/-- C20 (as amended): every operation that returns a status other than OK
leaves the cached flags initialized and shutdown exactly as they were before
the call, and leaves ID and Revision (the whole handle) unchanged unless the
operation is `MCP9808_Init` returning Locked; a failing `MCP9808_Init` leaves
initialized false whenever it was false before the call. -/
theorem C20_failures_keep_state {σ : Type} (p_Device : MCP9808_t σ) (w : World σ) :
    ((MCP9808_Init p_Device w).Error ≠ MCP9808_ERR_OK →
      (MCP9808_Init p_Device w).Device.Internal.isInitialized
        = p_Device.Internal.isInitialized ∧
      (MCP9808_Init p_Device w).Device.Internal.isShutdown = p_Device.Internal.isShutdown ∧
      ((MCP9808_Init p_Device w).Error ≠ MCP9808_ERR_LOCKED →
        (MCP9808_Init p_Device w).Device.ID = p_Device.ID ∧
        (MCP9808_Init p_Device w).Device.Revision = p_Device.Revision ∧
        (MCP9808_Init p_Device w).Device = p_Device) ∧
      (p_Device.Internal.isInitialized = false →
        (MCP9808_Init p_Device w).Device.Internal.isInitialized = false)) ∧
    (∀ (Enable : Bool) (r : Outcome σ Unit),
      MCP9808_SwitchShutdown p_Device Enable w = some r → r.Error ≠ MCP9808_ERR_OK →
      r.Device = p_Device) ∧
    (∀ (p_Temperature : Option Int) (r : Outcome σ (Option Int)),
      MCP9808_GetTemperature p_Device p_Temperature w = some r → r.Error ≠ MCP9808_ERR_OK → r.Device = p_Device) ∧
    (∀ (Limit : Int) (r : Outcome σ (Unit)),
      MCP9808_SetTupper p_Device Limit w = some r → r.Error ≠ MCP9808_ERR_OK → r.Device = p_Device) ∧
    (∀ (p_Limit : Option Int) (r : Outcome σ (Option Int)),
      MCP9808_GetTupper p_Device p_Limit w = some r → r.Error ≠ MCP9808_ERR_OK → r.Device = p_Device) ∧
    (∀ (Limit : Int) (r : Outcome σ (Unit)),
      MCP9808_SetTlower p_Device Limit w = some r → r.Error ≠ MCP9808_ERR_OK → r.Device = p_Device) ∧
    (∀ (p_Limit : Option Int) (r : Outcome σ (Option Int)),
      MCP9808_GetTlower p_Device p_Limit w = some r → r.Error ≠ MCP9808_ERR_OK → r.Device = p_Device) ∧
    (∀ (Limit : Int) (r : Outcome σ (Unit)),
      MCP9808_SetTcrit p_Device Limit w = some r → r.Error ≠ MCP9808_ERR_OK → r.Device = p_Device) ∧
    (∀ (p_Limit : Option Int) (r : Outcome σ (Option Int)),
      MCP9808_GetTcrit p_Device p_Limit w = some r → r.Error ≠ MCP9808_ERR_OK → r.Device = p_Device) ∧
    (∀ (Hysteresis : MCP9808_Hysteresis_t) (r : Outcome σ (Unit)),
      MCP9808_SetHysteresis p_Device Hysteresis w = some r → r.Error ≠ MCP9808_ERR_OK → r.Device = p_Device) ∧
    (∀ (p_Hysteresis : Option Nat) (r : Outcome σ (Option Nat)),
      MCP9808_GetHysteresis p_Device p_Hysteresis w = some r → r.Error ≠ MCP9808_ERR_OK → r.Device = p_Device) ∧
    (∀ (Resolution : MCP9808_Resolution_t) (r : Outcome σ (Unit)),
      MCP9808_SetResolution p_Device Resolution w = some r → r.Error ≠ MCP9808_ERR_OK → r.Device = p_Device) ∧
    (∀ (p_Resolution : Option Nat) (r : Outcome σ (Option Nat)),
      MCP9808_GetResolution p_Device p_Resolution w = some r → r.Error ≠ MCP9808_ERR_OK → r.Device = p_Device) := by
  refine ⟨?_, fun Enable r h hne => SwitchShutdown_device p_Device w Enable r h hne,
    fun p_Temperature r h _ => GetTemperature_device p_Device w p_Temperature r h,
    fun Limit r h _ => SetTupper_device p_Device w Limit r h,
    fun p_Limit r h _ => GetTupper_device p_Device w p_Limit r h,
    fun Limit r h _ => SetTlower_device p_Device w Limit r h,
    fun p_Limit r h _ => GetTlower_device p_Device w p_Limit r h,
    fun Limit r h _ => SetTcrit_device p_Device w Limit r h,
    fun p_Limit r h _ => GetTcrit_device p_Device w p_Limit r h,
    fun Hysteresis r h _ => SetHysteresis_device p_Device w Hysteresis r h,
    fun p_Hysteresis r h _ => GetHysteresis_device p_Device w p_Hysteresis r h,
    fun Resolution r h _ => SetResolution_device p_Device w Resolution r h,
    fun p_Resolution r h _ => GetResolution_device p_Device w p_Resolution r h⟩
  intro hne
  obtain ⟨hint, hdev⟩ := Init_failure_frame p_Device w hne
  refine ⟨by rw [hint], by rw [hint], ?_, ?_⟩
  · intro hnl
    have hd := hdev hnl
    exact ⟨by rw [hd], by rw [hd], hd⟩
  · intro hfalse
    rw [hint]
    exact hfalse

/-- C20 as stated fails. On the simulated sensor with both lock bits set
(configuration `{0x01, 0xC0}`) `MCP9808_Init` returns Locked, not OK, and has
changed ID from 0 to `0x01` and Revision from 0 to `0xC0`. And on an
initialized handle whose address was set to `0x10`, `MCP9808_Init` fails with
InvalidArgument and leaves initialized true, not false. -/
theorem C20_counterexample :
    (MCP9808_Init (simHandle false false) (simWorld lockedRegs)).Error = MCP9808_ERR_LOCKED ∧
    (MCP9808_Init (simHandle false false) (simWorld lockedRegs)).Error ≠ MCP9808_ERR_OK ∧
    (simHandle false false).ID = 0 ∧ (simHandle false false).Revision = 0 ∧
    (MCP9808_Init (simHandle false false) (simWorld lockedRegs)).Device.ID = 0x01 ∧
    (MCP9808_Init (simHandle false false) (simWorld lockedRegs)).Device.Revision = 0xC0 ∧
    (MCP9808_Init badAddressHandle (simWorld goodRegs)).Error = MCP9808_ERR_INVALID_ARG ∧
    (MCP9808_Init badAddressHandle (simWorld goodRegs)).Device.Internal.isInitialized = true := by
  decide

/-! ## Failed read of the ambient register -/

/-- C21: on an initialized, active handle. (a) If the transport read of the
ambient register returns a nonzero status, `MCP9808_GetTemperature` returns
InvalidResponse; the log gains that read only (no alarm callback), the
environment is what the read left, and the output destination keeps its old
content. (b) If the read succeeds it returns OK and the output holds the
decoded temperature. (c) Whenever the status is not OK the output is
unchanged and no alarm callback was invoked. -/
theorem C21_GetTemperature_read_failure {σ : Type} (p_Device : MCP9808_t σ) (w : World σ)
    (rd : MCP9808_Read_t σ) (old : Int)
    (hinit : p_Device.Internal.isInitialized = true)
    (hactive : p_Device.Internal.isShutdown = false)
    (hrd : p_Device.I2C.Read = some rd) :
    (∀ (s : Int) (data : List Nat) (e : σ),
      rd MCP9808_REG_TEMP_AMBIENT 2 p_Device.I2C.Address w.ext = (s, data, e) → s ≠ 0 →
      MCP9808_GetTemperature p_Device (some old) w
        = some ⟨MCP9808_ERR_INVALID_RESPONSE, p_Device,
            { ext := e, log := w.log ++ [Event.read MCP9808_REG_TEMP_AMBIENT 2 s data] },
            some old⟩) ∧
    (∀ (data : List Nat) (e : σ),
      rd MCP9808_REG_TEMP_AMBIENT 2 p_Device.I2C.Address w.ext = (0, data, e) →
      ∃ r, MCP9808_GetTemperature p_Device (some old) w = some r ∧
        r.Error = MCP9808_ERR_OK ∧
        r.out = some (decodedTemperature (byteAt data 0) (byteAt data 1))) ∧
    (∀ r, MCP9808_GetTemperature p_Device (some old) w = some r →
      r.Error ≠ MCP9808_ERR_OK →
      r.out = some old ∧
      ∀ (kind : AlarmKind) (T : Int), Event.alarm kind T ∉ newEvents w.log r.world.log) := by
  have hfail : ∀ (s : Int) (data : List Nat) (e : σ),
      rd MCP9808_REG_TEMP_AMBIENT 2 p_Device.I2C.Address w.ext = (s, data, e) → s ≠ 0 →
      MCP9808_GetTemperature p_Device (some old) w
        = some ⟨MCP9808_ERR_INVALID_RESPONSE, p_Device,
            { ext := e, log := w.log ++ [Event.read MCP9808_REG_TEMP_AMBIENT 2 s data] },
            some old⟩ := by
    intro s data e hread hs
    simp [MCP9808_GetTemperature, hinit, hactive, hrd, busRead, hread, hs]
  refine ⟨hfail, ?_, ?_⟩
  · intro data e hread
    obtain ⟨r, hr, herr, hout, _⟩ :=
      GetTemperature_log p_Device w rd old data e hinit hactive hrd hread
    exact ⟨r, hr, herr, hout⟩
  · intro r hr hne
    rcases hread : rd MCP9808_REG_TEMP_AMBIENT 2 p_Device.I2C.Address w.ext with ⟨s, data, e⟩
    by_cases hs : s = 0
    · subst hs
      obtain ⟨r2, hr2, herr, _, _⟩ :=
        GetTemperature_log p_Device w rd old data e hinit hactive hrd hread
      rw [hr] at hr2
      cases hr2
      exact absurd herr hne
    · rw [hfail s data e hread hs] at hr
      cases hr
      refine ⟨rfl, ?_⟩
      intro kind T
      rw [newEvents_append]
      simp

/-- C21, witness: (a) and (c) on the simulated sensor failing the read of
register `0x05`, (b) on the simulated sensor holding `{0x01, 0x90}`. -/
theorem C21_GetTemperature_read_failure_witness :
    MCP9808_GetTemperature (flakyHandle 5 true false) (some 21) (simWorld [(5, [0x81, 0x90])])
      = some ⟨MCP9808_ERR_INVALID_RESPONSE, flakyHandle 5 true false,
          { ext := [(5, [0x81, 0x90])],
            log := (simWorld [(5, [0x81, 0x90])]).log
              ++ [Event.read MCP9808_REG_TEMP_AMBIENT 2 (-1) []] },
          some 21⟩ ∧
    (∃ r, MCP9808_GetTemperature (simHandle true false) (some 21)
        (simWorld [(5, [0x01, 0x90])]) = some r ∧
      r.Error = MCP9808_ERR_OK ∧
      r.out = some (decodedTemperature (byteAt [0x01, 0x90] 0) (byteAt [0x01, 0x90] 1))) :=
  ⟨(C21_GetTemperature_read_failure (flakyHandle 5 true false) (simWorld [(5, [0x81, 0x90])])
      (flakyRead 5) 21 rfl rfl rfl).1 (-1) [] [(5, [0x81, 0x90])] rfl (by decide),
   (C21_GetTemperature_read_failure (simHandle true false) (simWorld [(5, [0x01, 0x90])])
      simRead 21 rfl rfl rfl).2.1 [0x01, 0x90] [(5, [0x01, 0x90])] rfl⟩

/-! ## Resolution register -/

set_option maxRecDepth 20000 in
theorem hysteresis_field (b : Nat) (hb : b < 256) :
    (b >>> 0x01) &&& 0x03 < 4 ∧ (b >>> 0x01) &&& 0x03 = (b &&& 0x06) >>> 0x01 := by
  have key : ∀ n, n < 256 →
      ((n >>> 0x01) &&& 0x03 < 4 ∧ (n >>> 0x01) &&& 0x03 = (n &&& 0x06) >>> 0x01) := by
    decide
  exact key b hb

/-- C23: for every 2-byte configuration value the transport returns, a
successful `MCP9808_GetHysteresis` delivers a level in 0..3, namely the value
of bits 1-2 of byte 0; so a second configuration value that agrees with the
first on those two bits gives the same level. -/
theorem C23_GetHysteresis_range {σ : Type} (p_Device : MCP9808_t σ) (w : World σ)
    (rd : MCP9808_Read_t σ) (old : Nat) (data : List Nat) (e : σ)
    (hinit : p_Device.Internal.isInitialized = true)
    (hrd : p_Device.I2C.Read = some rd)
    (hread : rd MCP9808_REG_CONFIG 2 p_Device.I2C.Address w.ext = (0, data, e)) :
    ∃ r level, MCP9808_GetHysteresis p_Device (some old) w = some r ∧
      r.Error = MCP9808_ERR_OK ∧ r.out = some level ∧ level < 4 ∧
      level = (byteAt data 0 &&& 0x06) >>> 0x01 ∧
      (∀ (w2 : World σ) (data2 : List Nat) (e2 : σ),
        rd MCP9808_REG_CONFIG 2 p_Device.I2C.Address w2.ext = (0, data2, e2) →
        byteAt data2 0 &&& 0x06 = byteAt data 0 &&& 0x06 →
        ∃ r2, MCP9808_GetHysteresis p_Device (some old) w2 = some r2 ∧
          r2.Error = MCP9808_ERR_OK ∧ r2.out = some level) := by
  obtain ⟨hlt, hfield⟩ := hysteresis_field (byteAt data 0) (byteAt_lt data 0)
  have hG : ∀ (w2 : World σ) (d2 : List Nat) (e2 : σ),
      rd MCP9808_REG_CONFIG 2 p_Device.I2C.Address w2.ext = (0, d2, e2) →
      MCP9808_GetHysteresis p_Device (some old) w2
        = some ⟨MCP9808_ERR_OK, p_Device,
            { ext := e2, log := w2.log ++ [Event.read MCP9808_REG_CONFIG 2 0 d2] },
            some ((byteAt d2 0 >>> 0x01) &&& 0x03)⟩ := by
    intro w2 d2 e2 hread2
    simp [MCP9808_GetHysteresis, hinit, hrd, busRead, hread2]
  refine ⟨_, _, hG w data e hread, rfl, rfl, hlt, hfield, ?_⟩
  intro w2 data2 e2 hread2 hagree
  obtain ⟨_, hfield2⟩ := hysteresis_field (byteAt data2 0) (byteAt_lt data2 0)
  refine ⟨_, hG w2 data2 e2 hread2, rfl, ?_⟩
  simp only [hfield, hfield2, hagree]

/-- C23, witness: configuration `{0x05, 0x1F}` (bits 1-2 of byte 0 are `10`)
on the simulated sensor. -/
theorem C23_GetHysteresis_range_witness :
    ∃ r level, MCP9808_GetHysteresis (simHandle true false) (some 0)
        (simWorld [(1, [0x05, 0x1F])]) = some r ∧
      r.Error = MCP9808_ERR_OK ∧ r.out = some level ∧ level < 4 ∧
      level = (byteAt [0x05, 0x1F] 0 &&& 0x06) >>> 0x01 ∧
      (∀ (w2 : World SimDev) (data2 : List Nat) (e2 : SimDev),
        simRead MCP9808_REG_CONFIG 2 (simHandle true false).I2C.Address w2.ext = (0, data2, e2) →
        byteAt data2 0 &&& 0x06 = byteAt [0x05, 0x1F] 0 &&& 0x06 →
        ∃ r2, MCP9808_GetHysteresis (simHandle true false) (some 0) w2 = some r2 ∧
          r2.Error = MCP9808_ERR_OK ∧ r2.out = some level) :=
  C23_GetHysteresis_range (simHandle true false) (simWorld [(1, [0x05, 0x1F])]) simRead 0
    [0x05, 0x1F] [(1, [0x05, 0x1F])] rfl rfl rfl

/-! ## Frame of the accessors -/

/-- `MCP9808_SwitchShutdown` changes at most the cached shutdown flag. -/
theorem SwitchShutdown_frame {σ : Type} (p_Device : MCP9808_t σ) (w : World σ)
    (Enable : Bool) (r : Outcome σ Unit)
    (h : MCP9808_SwitchShutdown p_Device Enable w = some r) :
    r.Device = p_Device ∨
    r.Device = { p_Device with Internal := { p_Device.Internal with isShutdown := Enable } } := by
  simp only [MCP9808_SwitchShutdown] at h
  split at h
  · cases h; exact Or.inl rfl
  · split at h
    · cases h; exact Or.inl rfl
    · split at h
      · contradiction
      · rename_i r0 hM
        have hd := ModifyBits_device p_Device w _ _ _ r0 hM
        split at h
        · cases h; exact Or.inl hd
        · cases h; rw [hd]; exact Or.inr rfl

/-- C24: `MCP9808_GetTemperature`, the six threshold setters and getters,
`MCP9808_SetHysteresis`, `MCP9808_GetHysteresis`, `MCP9808_SetResolution` and
`MCP9808_GetResolution` leave the whole handle unchanged, for every input and
every transport behaviour. `MCP9808_Init` on an initialized handle leaves the
handle unchanged and `MCP9808_SwitchShutdown` changes at most the shutdown
flag, so no operation resets an initialized flag that is true. -/
theorem C24_accessors_leave_handle {σ : Type} (p_Device : MCP9808_t σ) (w : World σ) :
    (∀ (p_Temperature : Option Int) (r : Outcome σ (Option Int)),
      MCP9808_GetTemperature p_Device p_Temperature w = some r → r.Device = p_Device) ∧
    (∀ (Limit : Int) (r : Outcome σ (Unit)),
      MCP9808_SetTupper p_Device Limit w = some r → r.Device = p_Device) ∧
    (∀ (p_Limit : Option Int) (r : Outcome σ (Option Int)),
      MCP9808_GetTupper p_Device p_Limit w = some r → r.Device = p_Device) ∧
    (∀ (Limit : Int) (r : Outcome σ (Unit)),
      MCP9808_SetTlower p_Device Limit w = some r → r.Device = p_Device) ∧
    (∀ (p_Limit : Option Int) (r : Outcome σ (Option Int)),
      MCP9808_GetTlower p_Device p_Limit w = some r → r.Device = p_Device) ∧
    (∀ (Limit : Int) (r : Outcome σ (Unit)),
      MCP9808_SetTcrit p_Device Limit w = some r → r.Device = p_Device) ∧
    (∀ (p_Limit : Option Int) (r : Outcome σ (Option Int)),
      MCP9808_GetTcrit p_Device p_Limit w = some r → r.Device = p_Device) ∧
    (∀ (Hysteresis : MCP9808_Hysteresis_t) (r : Outcome σ (Unit)),
      MCP9808_SetHysteresis p_Device Hysteresis w = some r → r.Device = p_Device) ∧
    (∀ (p_Hysteresis : Option Nat) (r : Outcome σ (Option Nat)),
      MCP9808_GetHysteresis p_Device p_Hysteresis w = some r → r.Device = p_Device) ∧
    (∀ (Resolution : MCP9808_Resolution_t) (r : Outcome σ (Unit)),
      MCP9808_SetResolution p_Device Resolution w = some r → r.Device = p_Device) ∧
    (∀ (p_Resolution : Option Nat) (r : Outcome σ (Option Nat)),
      MCP9808_GetResolution p_Device p_Resolution w = some r → r.Device = p_Device) ∧
    (p_Device.Internal.isInitialized = true → (MCP9808_Init p_Device w).Device = p_Device) ∧
    (∀ (Enable : Bool) (r : Outcome σ Unit),
      MCP9808_SwitchShutdown p_Device Enable w = some r →
      r.Device.Internal.isInitialized = p_Device.Internal.isInitialized ∧
      r.Device.ID = p_Device.ID ∧ r.Device.Revision = p_Device.Revision ∧
      r.Device.I2C = p_Device.I2C) := by
  refine ⟨fun p_Temperature r h => GetTemperature_device p_Device w p_Temperature r h,
    fun Limit r h => SetTupper_device p_Device w Limit r h,
    fun p_Limit r h => GetTupper_device p_Device w p_Limit r h,
    fun Limit r h => SetTlower_device p_Device w Limit r h,
    fun p_Limit r h => GetTlower_device p_Device w p_Limit r h,
    fun Limit r h => SetTcrit_device p_Device w Limit r h,
    fun p_Limit r h => GetTcrit_device p_Device w p_Limit r h,
    fun Hysteresis r h => SetHysteresis_device p_Device w Hysteresis r h,
    fun p_Hysteresis r h => GetHysteresis_device p_Device w p_Hysteresis r h,
    fun Resolution r h => SetResolution_device p_Device w Resolution r h,
    fun p_Resolution r h => GetResolution_device p_Device w p_Resolution r h, ?_, ?_⟩
  · intro hinit
    cases hrd : p_Device.I2C.Read with
    | none => simp [MCP9808_Init, hrd]
    | some rd =>
      cases hwr : p_Device.I2C.Write with
      | none => simp [MCP9808_Init, hrd, hwr]
      | some wr =>
        by_cases haddr : p_Device.I2C.Address < 0x18
        · simp [MCP9808_Init, hrd, hwr, haddr]
        · simp [MCP9808_Init, hrd, hwr, haddr, hinit]
  · intro Enable r h
    rcases SwitchShutdown_frame p_Device w Enable r h with hd | hd <;> rw [hd] <;>
      exact ⟨rfl, rfl, rfl, rfl⟩

/-! ## The register argument of the masked partial write -/

/-- C25: `MCP9808_ModifyBits` ignores its `Register` argument: two calls that
differ only in `Register` are the same call. With both callbacks set it
always has an outcome, and every outcome has appended to the log either one
failed read of the configuration register `0x01` and nothing else, or one
successful read of `0x01` followed by exactly one write to `0x01`. -/
theorem C25_ModifyBits_register_ignored {σ : Type} (p_Device : MCP9808_t σ) (w : World σ)
    (Mask Value : Nat) :
    (∀ Register Register2 : Nat,
      MCP9808_ModifyBits p_Device Register Mask Value w
        = MCP9808_ModifyBits p_Device Register2 Mask Value w) ∧
    (∀ (Register : Nat) (rd : MCP9808_Read_t σ) (wr : MCP9808_Write_t σ),
      p_Device.I2C.Read = some rd → p_Device.I2C.Write = some wr →
      ∃ r, MCP9808_ModifyBits p_Device Register Mask Value w = some r) ∧
    (∀ (Register : Nat) (r : Outcome σ Unit),
      MCP9808_ModifyBits p_Device Register Mask Value w = some r →
      (∃ (s : Int) (data : List Nat), s ≠ 0 ∧
        newEvents w.log r.world.log = [Event.read MCP9808_REG_CONFIG 2 s data]) ∨
      (∃ (data bytes : List Nat) (st : Int),
        newEvents w.log r.world.log
          = [Event.read MCP9808_REG_CONFIG 2 0 data, Event.write MCP9808_REG_CONFIG bytes st])) := by
  refine ⟨fun _ _ => rfl, ?_, ?_⟩
  · intro Register rd wr hrd hwr
    simp only [MCP9808_ModifyBits, hrd, hwr]
    split_ifs <;> exact ⟨_, rfl⟩
  · intro Register r h
    cases hrd : p_Device.I2C.Read with
    | none => simp [MCP9808_ModifyBits, hrd] at h
    | some rd =>
      rcases hread : rd MCP9808_REG_CONFIG 2 p_Device.I2C.Address w.ext with ⟨s, data, e⟩
      by_cases hs : s = 0
      · subst hs
        cases hwr : p_Device.I2C.Write with
        | none => simp [MCP9808_ModifyBits, hrd, hwr, busRead, hread] at h
        | some wr =>
          simp only [MCP9808_ModifyBits, hrd, hwr, busRead, busWrite, hread, ne_eq,
            not_true_eq_false, if_false] at h
          right
          split_ifs at h <;> cases h <;>
            exact ⟨data, _, _, by rw [List.append_assoc]; exact newEvents_append _ _⟩
      · rw [ModifyBits_read_failed p_Device w rd Register Mask Value s data e hrd hread hs] at h
        cases h
        exact Or.inl ⟨s, data, hs, newEvents_append _ _⟩

end MCP9808
